import Mathlib

/-!
Shallow embedding of the ctfd-sdk client (src/ctfd_sdk/api.py).

The SDK manages users, teams, challenges and flags in a remote CTFd
service over its REST API, and keeps a local JSON cache mapping
caller-chosen names to server-assigned numeric ids.

Modelling choices:
* The JSON cache file is a `Cache`: four association lists (Python dicts
  preserve insertion order and have unique keys).
* Cached records are a single `Entry` type with an `id` and an optional
  `team_id`; non-user records simply carry `team_id := none` (Python
  stores `{'id': ...}` for them and never reads a `team_id` key back).
* The network is an oracle: a `World` carries the list of `pending`
  responses the transport will return, the log of `sent` requests, and
  the warning/info logs.  Each HTTP call consumes one pending response.
* Python exceptions do not roll back state, so every operation returns
  `Except Err α × World`: the world component is the state the exception
  (if any) left behind.
* The sync and async code paths are duplicated in the source; they are
  embedded as separate definitions (`assign_host` / `aassign_host`,
  `create_user` / `acreate_user`, ...) mirroring that duplication, so
  their agreement is a theorem rather than a modelling artifact.
* A response whose JSON body lacks an integer `data.id` is modelled as a
  `keyErr` failure where Python would raise a KeyError/TypeError.
-/

/-- JSON values, used for request and response bodies. -/
inductive JVal where
  | jnull : JVal
  | jbool : Bool → JVal
  | jint : Int → JVal
  | jstr : String → JVal
  | jarr : List JVal → JVal
  | jobj : List (String × JVal) → JVal
  deriving Repr

/-- Lookup of a key in a JSON object field list (first match). -/
def lookupJ : List (String × JVal) → String → Option JVal
  | [], _ => none
  | (k, v) :: rest, n => if k = n then some v else lookupJ rest n

/-- Access `v[k]` on a JSON value; `none` when `v` is not an object or lacks `k`. -/
def JVal.getKey : JVal → String → Option JVal
  | .jobj fs, k => lookupJ fs k
  | _, _ => none

/-- Read a JSON value as an integer, if it is one. -/
def JVal.asInt : JVal → Option Int
  | .jint n => some n
  | _ => none

/-- A cached identifier record: `{'id': ...}` plus, for users, `'team_id'`.
Records of non-user kinds carry `team_id := none`. -/
structure Entry where
  id : Int
  team_id : Option Int := none
  deriving Repr, DecidableEq

/-- The four entity kinds of the cache document. -/
inductive Kind where
  | users | teams | challenges | flags
  deriving Repr, DecidableEq

/-- The string key Python uses for each collection of the cache document. -/
def Kind.str : Kind → String
  | .users => "users"
  | .teams => "teams"
  | .challenges => "challenges"
  | .flags => "flags"

/-- The cache document: four name → record collections persisted as one JSON file. -/
structure Cache where
  users : List (String × Entry)
  teams : List (String × Entry)
  challenges : List (String × Entry)
  flags : List (String × Entry)
  deriving Repr, DecidableEq

/-- Collection of a kind, as read from the cache document. -/
def Cache.coll (c : Cache) : Kind → List (String × Entry)
  | .users => c.users
  | .teams => c.teams
  | .challenges => c.challenges
  | .flags => c.flags

/-- Replace one collection of the cache document. -/
def Cache.setColl (c : Cache) : Kind → List (String × Entry) → Cache
  | .users, l => { c with users := l }
  | .teams, l => { c with teams := l }
  | .challenges, l => { c with challenges := l }
  | .flags, l => { c with flags := l }

/-- Dict lookup: `storage[field].get(name)`. -/
def alookup : List (String × Entry) → String → Option Entry
  | [], _ => none
  | (k, v) :: rest, n => if k = n then some v else alookup rest n

/-- Dict assignment `storage[field][name] = e`: replace in place, else append
(Python dicts keep insertion order). -/
def aset : List (String × Entry) → String → Entry → List (String × Entry)
  | [], n, e => [(n, e)]
  | (k, v) :: rest, n, e => if k = n then (n, e) :: rest else (k, v) :: aset rest n e

/-- Dict deletion `del storage[field][name]` (keys are unique). -/
def aerase : List (String × Entry) → String → List (String × Entry)
  | [], _ => []
  | (k, v) :: rest, n => if k = n then rest else (k, v) :: aerase rest n

/-- In-place update `storage['users'][name]['team_id'] = t`; `none` when the
key is absent (Python would raise KeyError). -/
def setTeamId (col : List (String × Entry)) (name : String) (t : Option Int) :
    Option (List (String × Entry)) :=
  match col with
  | [] => none
  | (k, v) :: rest =>
      if k = name then some ((k, { v with team_id := t }) :: rest)
      else
        match setTeamId rest name t with
        | some l => some ((k, v) :: l)
        | none => none

/-- Python `str.strip(c)`: drop the character from both ends. -/
def pyStrip (c : Char) (s : String) : String :=
  String.mk (((s.data.dropWhile (fun x => x = c)).reverse.dropWhile (fun x => x = c)).reverse)

/-- An HTTP response as the transport hands it back. -/
structure Response where
  status_code : Nat
  text : String
  body : JVal
  deriving Repr

/-- A fully built outbound HTTP request, as handed to the transport. -/
structure HttpRequest where
  verb : String
  url : String
  headers : List (String × String)
  body : Option JVal
  deriving Repr

/-- Failure outcomes of an operation. -/
inductive Err where
  | ctfd : String → Err
  | keyErr : String → Err
  | transport : Err
  deriving Repr, DecidableEq

/-- Full state threaded through an operation: the cache file, the oracle of
responses the transport will return, the log of issued requests, and the
warning/info logs. -/
structure World where
  cache : Cache
  pending : List Response
  sent : List HttpRequest
  warnings : List String
  infos : List String
  deriving Repr

/-- `CtfdConnector.__init__`: admin token plus host with `/` stripped. -/
structure CtfdConnector where
  admin_token : String
  host : String
  deriving Repr, DecidableEq

/-- Connector construction (`host.strip('/')`). -/
def CtfdConnector.make (tok host : String) : CtfdConnector :=
  { admin_token := tok, host := pyStrip '/' host }

/-- `response.json()['data']['id']` read as an integer. -/
def responseDataId (r : Response) : Option Int :=
  match (r.body.getKey "data") with
  | some d =>
      match d.getKey "id" with
      | some v => v.asInt
      | none => none
  | none => none

/-- `CtfdConnector.__set_args_kwargs`: full URL `host + '/api/v1' + path` and
the injected headers. -/
def set_args_kwargs (c : CtfdConnector) (path : String) :
    String × List (String × String) :=
  (c.host ++ "/api/v1" ++ path,
   [("Content-Type", "application/json"),
    ("Authorization", "Token " ++ c.admin_token)])

/-- The message `CtfdConnector.__handle_bad_response` builds (note the double
space before `in CTFd` in the source f-string). -/
def badResponseMsg (funcName url text : String) : String :=
  "Unable to get response in method " ++ funcName ++ " from url " ++ url ++
    "  in CTFd: " ++ text

/-- `CtfdConnector.__handle_bad_response`: 200/201 pass; anything else logs a
warning and raises `CTFdException` with the message. -/
def handle_bad_response (funcName url : String) (r : Response) (w : World) :
    Except Err Unit × World :=
  if r.status_code = 200 ∨ r.status_code = 201 then (.ok (), w)
  else
    let msg := badResponseMsg funcName url r.text
    (.error (.ctfd msg), { w with warnings := w.warnings ++ [msg] })

/-- The transport (`httpx` client call): records the request and yields the
next pending oracle response. -/
def httpCall (verb url : String) (headers : List (String × String))
    (body : Option JVal) (w : World) : Except Err Response × World :=
  match w.pending with
  | [] => (.error .transport, w)
  | r :: rest =>
      (.ok r,
       { w with
         pending := rest,
         sent := w.sent ++ [{ verb := verb, url := url, headers := headers, body := body }] })

/-- The `assign_host` decorator around a sync verb: build URL and headers,
issue the call, classify the response. -/
def assign_host (c : CtfdConnector) (funcName verb path : String)
    (body : Option JVal) (w : World) : Except Err Response × World :=
  let (url, headers) := set_args_kwargs c path
  match httpCall verb url headers body w with
  | (.error e, w1) => (.error e, w1)
  | (.ok r, w1) =>
      match handle_bad_response funcName url r w1 with
      | (.error e, w2) => (.error e, w2)
      | (.ok _, w2) => (.ok r, w2)

/-- The `aassign_host` decorator around an async verb: same logic written out
separately in the source. -/
def aassign_host (c : CtfdConnector) (funcName verb path : String)
    (body : Option JVal) (w : World) : Except Err Response × World :=
  let (url, headers) := set_args_kwargs c path
  match httpCall verb url headers body w with
  | (.error e, w1) => (.error e, w1)
  | (.ok r, w1) =>
      match handle_bad_response funcName url r w1 with
      | (.error e, w2) => (.error e, w2)
      | (.ok _, w2) => (.ok r, w2)

/-- `CtfdConnector.get`. -/
def CtfdConnector.get (c : CtfdConnector) (path : String) (body : Option JVal)
    (w : World) : Except Err Response × World :=
  assign_host c "get" "GET" path body w

/-- `CtfdConnector.post`. -/
def CtfdConnector.post (c : CtfdConnector) (path : String) (body : Option JVal)
    (w : World) : Except Err Response × World :=
  assign_host c "post" "POST" path body w

/-- `CtfdConnector.patch`. -/
def CtfdConnector.patch (c : CtfdConnector) (path : String) (body : Option JVal)
    (w : World) : Except Err Response × World :=
  assign_host c "patch" "PATCH" path body w

/-- `CtfdConnector.delete`. -/
def CtfdConnector.delete (c : CtfdConnector) (path : String) (body : Option JVal)
    (w : World) : Except Err Response × World :=
  assign_host c "delete" "DELETE" path body w

/-- `CtfdConnector.aget`. -/
def CtfdConnector.aget (c : CtfdConnector) (path : String) (body : Option JVal)
    (w : World) : Except Err Response × World :=
  aassign_host c "aget" "GET" path body w

/-- `CtfdConnector.apost`. -/
def CtfdConnector.apost (c : CtfdConnector) (path : String) (body : Option JVal)
    (w : World) : Except Err Response × World :=
  aassign_host c "apost" "POST" path body w

/-- `CtfdConnector.apatch`. -/
def CtfdConnector.apatch (c : CtfdConnector) (path : String) (body : Option JVal)
    (w : World) : Except Err Response × World :=
  aassign_host c "apatch" "PATCH" path body w

/-- `CtfdConnector.adelete`. -/
def CtfdConnector.adelete (c : CtfdConnector) (path : String) (body : Option JVal)
    (w : World) : Except Err Response × World :=
  aassign_host c "adelete" "DELETE" path body w

/-- The message `Storage.get_field_from_storage` builds for an absent name. -/
def notFoundMsg (name field : String) : String :=
  name ++ " not found in storage `" ++ field ++ "`"

/-- `Storage.get_field_from_storage`: lookup a name, raising (with a warning
logged) when absent. -/
def get_field_from_storage (k : Kind) (name : String) (w : World) :
    Except Err Entry × World :=
  match alookup (w.cache.coll k) name with
  | some e => (.ok e, w)
  | none =>
      let msg := notFoundMsg name k.str
      (.error (.ctfd msg), { w with warnings := w.warnings ++ [msg] })

/-- `Storage.exist_in_field`. -/
def exist_in_field (k : Kind) (name : String) (w : World) : Bool :=
  (alookup (w.cache.coll k) name).isSome

/-- `Storage.update_storage_field_from_response`: store
`{'id': response.json()['data']['id']}` under the name and persist. -/
def update_storage_field_from_response (r : Response) (k : Kind) (name : String)
    (w : World) : Except Err Unit × World :=
  match responseDataId r with
  | none => (.error (.keyErr "data.id"), w)
  | some i =>
      (.ok (),
       { w with cache := w.cache.setColl k (aset (w.cache.coll k) name { id := i, team_id := none }) })

/-- `Storage.delete_storage_field`. -/
def delete_storage_field (k : Kind) (name : String) (w : World) : World :=
  { w with cache := w.cache.setColl k (aerase (w.cache.coll k) name) }

/-- `CtfdApi._create_user_request`: duplicate check then the registration
payload for `POST /users`. -/
def create_user_request (username : String) (is_admin : Bool) (w : World) :
    Except Err (String × JVal) × World :=
  if exist_in_field .users username w then
    let msg := "User " ++ username ++ " already registered in CTFd"
    (.error (.ctfd msg), { w with infos := w.infos ++ [msg] })
  else
    (.ok ("/users", .jobj [
      ("banned", .jbool false),
      ("email", .jstr (username ++ "@email.com")),
      ("fields", .jarr []),
      ("hidden", .jbool false),
      ("name", .jstr username),
      ("password", .jstr username),
      ("type", .jstr (if is_admin then "admin" else "user")),
      ("verified", .jbool true)]), w)

/-- `CtfdApi._create_user_core`: store `{'id': data['id'], 'team_id': None}`
under the username and log. -/
def create_user_core (r : Response) (username : String) (w : World) :
    Except Err Unit × World :=
  match responseDataId r with
  | none => (.error (.keyErr "data.id"), w)
  | some i =>
      let cu := aset w.cache.users username { id := i, team_id := none }
      let w1 := { w with cache := w.cache.setColl Kind.users cu }
      (.ok (), { w1 with infos := w1.infos ++
        ["Agent with username: " ++ username ++ " registered in CTFd"] })

/-- `CtfdApi.create_user`. -/
def create_user (c : CtfdConnector) (username : String) (is_admin : Bool)
    (w : World) : Except Err Unit × World :=
  match create_user_request username is_admin w with
  | (.error e, w1) => (.error e, w1)
  | (.ok (path, body), w1) =>
      match c.post path (some body) w1 with
      | (.error e, w2) => (.error e, w2)
      | (.ok r, w2) => create_user_core r username w2

/-- `CtfdApi.acreate_user`. -/
def acreate_user (c : CtfdConnector) (username : String) (is_admin : Bool)
    (w : World) : Except Err Unit × World :=
  match create_user_request username is_admin w with
  | (.error e, w1) => (.error e, w1)
  | (.ok (path, body), w1) =>
      match c.apost path (some body) w1 with
      | (.error e, w2) => (.error e, w2)
      | (.ok r, w2) => create_user_core r username w2

/-- `CtfdApi._create_team_core`. -/
def create_team_core (r : Response) (name : String) (w : World) :
    Except Err Unit × World :=
  update_storage_field_from_response r .teams name w

/-- `CtfdApi._create_team_request`. -/
def create_team_request (name : String) (w : World) :
    Except Err (String × JVal) × World :=
  if exist_in_field .teams name w then
    let msg := "Team " ++ name ++ " already registered in CTFd"
    (.error (.ctfd msg), { w with infos := w.infos ++ [msg] })
  else
    (.ok ("/teams", .jobj [
      ("banned", .jbool false),
      ("country", .jstr "CZ"),
      ("email", .jstr (name ++ "@copas.cz")),
      ("fields", .jarr []),
      ("hidden", .jbool false),
      ("name", .jstr name),
      ("password", .jstr name)]), w)

/-- `CtfdApi.create_team`. -/
def create_team (c : CtfdConnector) (name : String) (w : World) :
    Except Err Unit × World :=
  match create_team_request name w with
  | (.error e, w1) => (.error e, w1)
  | (.ok (path, body), w1) =>
      match c.post path (some body) w1 with
      | (.error e, w2) => (.error e, w2)
      | (.ok r, w2) => create_team_core r name w2

/-- `CtfdApi.acreate_team`. -/
def acreate_team (c : CtfdConnector) (name : String) (w : World) :
    Except Err Unit × World :=
  match create_team_request name w with
  | (.error e, w1) => (.error e, w1)
  | (.ok (path, body), w1) =>
      match c.apost path (some body) w1 with
      | (.error e, w2) => (.error e, w2)
      | (.ok r, w2) => create_team_core r name w2

/-- `CtfdApi._remove_user_from_team_request`: `(None, None)` when the user has
no team; otherwise the member-removal path (note: the source f-string
`f'teams/{...}/members'` has no leading slash) and body. -/
def remove_user_from_team_request (user_name : String) (w : World) :
    Except Err (Option (String × JVal)) × World :=
  match get_field_from_storage .users user_name w with
  | (.error e, w1) => (.error e, w1)
  | (.ok user, w1) =>
      match user.team_id with
      | none =>
          (.ok none, { w1 with infos := w1.infos ++
            ["User " ++ user_name ++ " not assigned to any team"] })
      | some tid =>
          (.ok (some ("teams/" ++ toString tid ++ "/members",
                      .jobj [("user_id", .jint user.id)])), w1)

/-- `CtfdApi._remove_user_from_team_core`: set the cached `team_id` to null. -/
def remove_user_from_team_core (user_name : String) (w : World) :
    Except Err Unit × World :=
  match setTeamId w.cache.users user_name none with
  | none => (.error (.keyErr user_name), w)
  | some l => (.ok (), { w with cache := w.cache.setColl Kind.users l })

/-- `CtfdApi.remove_user_from_team`. -/
def remove_user_from_team (c : CtfdConnector) (user_name : String) (w : World) :
    Except Err Unit × World :=
  match remove_user_from_team_request user_name w with
  | (.error e, w1) => (.error e, w1)
  | (.ok none, w1) => (.ok (), w1)
  | (.ok (some (path, body)), w1) =>
      match c.delete path (some body) w1 with
      | (.error e, w2) => (.error e, w2)
      | (.ok _, w2) => remove_user_from_team_core user_name w2

/-- `CtfdApi.aremove_user_from_team`. -/
def aremove_user_from_team (c : CtfdConnector) (user_name : String) (w : World) :
    Except Err Unit × World :=
  match remove_user_from_team_request user_name w with
  | (.error e, w1) => (.error e, w1)
  | (.ok none, w1) => (.ok (), w1)
  | (.ok (some (path, body)), w1) =>
      match c.adelete path (some body) w1 with
      | (.error e, w2) => (.error e, w2)
      | (.ok _, w2) => remove_user_from_team_core user_name w2

/-- `CtfdApi.assign_user2team`: no-op when the user already has the target
team's id; otherwise remove from the current team (if any), post the
member addition, and record the new `team_id`. -/
def assign_user2team (c : CtfdConnector) (user_name team_name : String)
    (w : World) : Except Err Unit × World :=
  match get_field_from_storage .users user_name w with
  | (.error e, w1) => (.error e, w1)
  | (.ok user, w1) =>
      match get_field_from_storage .teams team_name w1 with
      | (.error e, w2) => (.error e, w2)
      | (.ok team, w2) =>
          if user.team_id = some team.id then
            (.ok (), { w2 with infos := w2.infos ++
              ["User " ++ user_name ++ " already assigned to team " ++ team_name] })
          else
            match (if user.team_id ≠ none
                   then remove_user_from_team c user_name w2
                   else (.ok (), w2)) with
            | (.error e, w3) => (.error e, w3)
            | (.ok _, w3) =>
                match c.post ("/teams/" ++ toString team.id ++ "/members")
                        (some (.jobj [("user_id", .jint user.id)])) w3 with
                | (.error e, w4) => (.error e, w4)
                | (.ok _, w4) =>
                    match setTeamId w4.cache.users user_name (some team.id) with
                    | none => (.error (.keyErr user_name), w4)
                    | some l => (.ok (), { w4 with cache := w4.cache.setColl Kind.users l })

/-- `CtfdApi.aassign_user2team`. -/
def aassign_user2team (c : CtfdConnector) (user_name team_name : String)
    (w : World) : Except Err Unit × World :=
  match get_field_from_storage .users user_name w with
  | (.error e, w1) => (.error e, w1)
  | (.ok user, w1) =>
      match get_field_from_storage .teams team_name w1 with
      | (.error e, w2) => (.error e, w2)
      | (.ok team, w2) =>
          if user.team_id = some team.id then
            (.ok (), { w2 with infos := w2.infos ++
              ["User " ++ user_name ++ " already assigned to team " ++ team_name] })
          else
            match (if user.team_id ≠ none
                   then aremove_user_from_team c user_name w2
                   else (.ok (), w2)) with
            | (.error e, w3) => (.error e, w3)
            | (.ok _, w3) =>
                match c.apost ("/teams/" ++ toString team.id ++ "/members")
                        (some (.jobj [("user_id", .jint user.id)])) w3 with
                | (.error e, w4) => (.error e, w4)
                | (.ok _, w4) =>
                    match setTeamId w4.cache.users user_name (some team.id) with
                    | none => (.error (.keyErr user_name), w4)
                    | some l => (.ok (), { w4 with cache := w4.cache.setColl Kind.users l })

/-- `CtfdApi._create_challenge_core`. -/
def create_challenge_core (r : Response) (name : String) (w : World) :
    Except Err Unit × World :=
  update_storage_field_from_response r .challenges name w

/-- `CtfdApi._create_challenge_request`. -/
def create_challenge_request (name : String) (value : Int)
    (category description state challenge_type : String) (w : World) :
    Except Err (String × JVal) × World :=
  if exist_in_field .challenges name w then
    let msg := "Challenge " ++ name ++ " already registered in CTFd"
    (.error (.ctfd msg), { w with infos := w.infos ++ [msg] })
  else
    (.ok ("/challenges", .jobj [
      ("category", .jstr category),
      ("description", .jstr description),
      ("state", .jstr state),
      ("name", .jstr name),
      ("type", .jstr challenge_type),
      ("value", .jint value)]), w)

/-- `CtfdApi.create_challenge`. -/
def create_challenge (c : CtfdConnector) (name : String) (value : Int)
    (category description state challenge_type : String) (w : World) :
    Except Err Unit × World :=
  match create_challenge_request name value category description state challenge_type w with
  | (.error e, w1) => (.error e, w1)
  | (.ok (path, body), w1) =>
      match c.post path (some body) w1 with
      | (.error e, w2) => (.error e, w2)
      | (.ok r, w2) => create_challenge_core r name w2

/-- `CtfdApi.acreate_challenge`. -/
def acreate_challenge (c : CtfdConnector) (name : String) (value : Int)
    (category description state challenge_type : String) (w : World) :
    Except Err Unit × World :=
  match create_challenge_request name value category description state challenge_type w with
  | (.error e, w1) => (.error e, w1)
  | (.ok (path, body), w1) =>
      match c.apost path (some body) w1 with
      | (.error e, w2) => (.error e, w2)
      | (.ok r, w2) => create_challenge_core r name w2

/-- `CtfdApi._create_flag_core`. -/
def create_flag_core (r : Response) (flag_name : String) (w : World) :
    Except Err Unit × World :=
  update_storage_field_from_response r .flags flag_name w

/-- `CtfdApi._create_flag_request`: resolve the challenge id first, then the
duplicate-flag check, then the payload for `POST /flags`. -/
def create_flag_request (challenge_name flag_name flag datav flag_type : String)
    (w : World) : Except Err (String × JVal) × World :=
  match get_field_from_storage .challenges challenge_name w with
  | (.error e, w1) => (.error e, w1)
  | (.ok challenge, w1) =>
      if exist_in_field .flags flag_name w1 then
        let msg := "Flag " ++ flag_name ++ " already registered in CTFd"
        (.error (.ctfd msg), { w1 with infos := w1.infos ++ [msg] })
      else
        (.ok ("/flags", .jobj [
          ("challenge_id", .jint challenge.id),
          ("content", .jstr flag),
          ("data", .jstr datav),
          ("type", .jstr flag_type)]), w1)

/-- `CtfdApi.create_flag`. -/
def create_flag (c : CtfdConnector) (challenge_name flag_name flag datav flag_type : String)
    (w : World) : Except Err Unit × World :=
  match create_flag_request challenge_name flag_name flag datav flag_type w with
  | (.error e, w1) => (.error e, w1)
  | (.ok (path, body), w1) =>
      match c.post path (some body) w1 with
      | (.error e, w2) => (.error e, w2)
      | (.ok r, w2) => create_flag_core r flag_name w2

/-- `CtfdApi.acreate_flag`. -/
def acreate_flag (c : CtfdConnector) (challenge_name flag_name flag datav flag_type : String)
    (w : World) : Except Err Unit × World :=
  match create_flag_request challenge_name flag_name flag datav flag_type w with
  | (.error e, w1) => (.error e, w1)
  | (.ok (path, body), w1) =>
      match c.apost path (some body) w1 with
      | (.error e, w2) => (.error e, w2)
      | (.ok r, w2) => create_flag_core r flag_name w2

/-- `CtfdApi._update_flag_request`: resolve the flag id and build the PATCH
path and body. -/
def update_flag_request (name flag datav flag_type : String) (w : World) :
    Except Err (String × JVal) × World :=
  match get_field_from_storage .flags name w with
  | (.error e, w1) => (.error e, w1)
  | (.ok field, w1) =>
      (.ok ("/flags/" ++ toString field.id, .jobj [
        ("content", .jstr flag),
        ("data", .jstr datav),
        ("type", .jstr flag_type),
        ("id", .jint field.id)]), w1)

/-- `CtfdApi.update_flag`. -/
def update_flag (c : CtfdConnector) (name flag datav flag_type : String)
    (w : World) : Except Err Unit × World :=
  match update_flag_request name flag datav flag_type w with
  | (.error e, w1) => (.error e, w1)
  | (.ok (path, body), w1) =>
      match c.patch path (some body) w1 with
      | (.error e, w2) => (.error e, w2)
      | (.ok _, w2) => (.ok (), w2)

/-- `CtfdApi.aupdate_flag`. -/
def aupdate_flag (c : CtfdConnector) (name flag datav flag_type : String)
    (w : World) : Except Err Unit × World :=
  match update_flag_request name flag datav flag_type w with
  | (.error e, w1) => (.error e, w1)
  | (.ok (path, body), w1) =>
      match c.apatch path (some body) w1 with
      | (.error e, w2) => (.error e, w2)
      | (.ok _, w2) => (.ok (), w2)

/-- `CtfdApi._delete_flag_request`. -/
def delete_flag_request (name : String) (w : World) :
    Except Err String × World :=
  match get_field_from_storage .flags name w with
  | (.error e, w1) => (.error e, w1)
  | (.ok field, w1) => (.ok ("/flags/" ++ toString field.id), w1)

/-- `CtfdApi.delete_flag`. -/
def delete_flag (c : CtfdConnector) (name : String) (w : World) :
    Except Err Unit × World :=
  match delete_flag_request name w with
  | (.error e, w1) => (.error e, w1)
  | (.ok path, w1) =>
      match c.delete path none w1 with
      | (.error e, w2) => (.error e, w2)
      | (.ok _, w2) => (.ok (), delete_storage_field .flags name w2)

/-- `CtfdApi.adelete_flag`. -/
def adelete_flag (c : CtfdConnector) (name : String) (w : World) :
    Except Err Unit × World :=
  match delete_flag_request name w with
  | (.error e, w1) => (.error e, w1)
  | (.ok path, w1) =>
      match c.adelete path none w1 with
      | (.error e, w2) => (.error e, w2)
      | (.ok _, w2) => (.ok (), delete_storage_field .flags name w2)

/-- `CtfdApi.delete_user`. -/
def delete_user (c : CtfdConnector) (name : String) (w : World) :
    Except Err Unit × World :=
  match get_field_from_storage .users name w with
  | (.error e, w1) => (.error e, w1)
  | (.ok user, w1) =>
      match c.delete ("/users/" ++ toString user.id) none w1 with
      | (.error e, w2) => (.error e, w2)
      | (.ok _, w2) => (.ok (), delete_storage_field .users name w2)

/-- `CtfdApi.adelete_user`. -/
def adelete_user (c : CtfdConnector) (name : String) (w : World) :
    Except Err Unit × World :=
  match get_field_from_storage .users name w with
  | (.error e, w1) => (.error e, w1)
  | (.ok user, w1) =>
      match c.adelete ("/users/" ++ toString user.id) none w1 with
      | (.error e, w2) => (.error e, w2)
      | (.ok _, w2) => (.ok (), delete_storage_field .users name w2)

/-- `CtfdApi.delete_team`. -/
def delete_team (c : CtfdConnector) (name : String) (w : World) :
    Except Err Unit × World :=
  match get_field_from_storage .teams name w with
  | (.error e, w1) => (.error e, w1)
  | (.ok team, w1) =>
      match c.delete ("/teams/" ++ toString team.id) none w1 with
      | (.error e, w2) => (.error e, w2)
      | (.ok _, w2) => (.ok (), delete_storage_field .teams name w2)

/-- `CtfdApi.adelete_team`. -/
def adelete_team (c : CtfdConnector) (name : String) (w : World) :
    Except Err Unit × World :=
  match get_field_from_storage .teams name w with
  | (.error e, w1) => (.error e, w1)
  | (.ok team, w1) =>
      match c.adelete ("/teams/" ++ toString team.id) none w1 with
      | (.error e, w2) => (.error e, w2)
      | (.ok _, w2) => (.ok (), delete_storage_field .teams name w2)

/-- `CtfdApi.delete_challenge`. -/
def delete_challenge (c : CtfdConnector) (name : String) (w : World) :
    Except Err Unit × World :=
  match get_field_from_storage .challenges name w with
  | (.error e, w1) => (.error e, w1)
  | (.ok challenge, w1) =>
      match c.delete ("/challenges/" ++ toString challenge.id) none w1 with
      | (.error e, w2) => (.error e, w2)
      | (.ok _, w2) => (.ok (), delete_storage_field .challenges name w2)

/-- `CtfdApi.adelete_challenge`. -/
def adelete_challenge (c : CtfdConnector) (name : String) (w : World) :
    Except Err Unit × World :=
  match get_field_from_storage .challenges name w with
  | (.error e, w1) => (.error e, w1)
  | (.ok challenge, w1) =>
      match c.adelete ("/challenges/" ++ toString challenge.id) none w1 with
      | (.error e, w2) => (.error e, w2)
      | (.ok _, w2) => (.ok (), delete_storage_field .challenges name w2)

/-- A façade operation with its arguments (one constructor per public
`CtfdApi` entity operation). -/
inductive Op where
  | createUser (username : String) (is_admin : Bool)
  | createTeam (name : String)
  | createChallenge (name : String) (value : Int)
      (category description state challenge_type : String)
  | createFlag (challenge_name flag_name flag datav flag_type : String)
  | assignUser2Team (user_name team_name : String)
  | removeUserFromTeam (user_name : String)
  | updateFlag (name flag datav flag_type : String)
  | deleteUser (name : String)
  | deleteTeam (name : String)
  | deleteChallenge (name : String)
  | deleteFlag (name : String)
  deriving Repr, DecidableEq

/-- Run a façade operation through the blocking (sync) variants. -/
def runSync (c : CtfdConnector) : Op → World → Except Err Unit × World
  | .createUser u a, w => create_user c u a w
  | .createTeam n, w => create_team c n w
  | .createChallenge n v cat d st ty, w => create_challenge c n v cat d st ty w
  | .createFlag ch fl fv dv ty, w => create_flag c ch fl fv dv ty w
  | .assignUser2Team u t, w => assign_user2team c u t w
  | .removeUserFromTeam u, w => remove_user_from_team c u w
  | .updateFlag n fv dv ty, w => update_flag c n fv dv ty w
  | .deleteUser n, w => delete_user c n w
  | .deleteTeam n, w => delete_team c n w
  | .deleteChallenge n, w => delete_challenge c n w
  | .deleteFlag n, w => delete_flag c n w

/-- Run a façade operation through the non-blocking (async) variants. -/
def runAsync (c : CtfdConnector) : Op → World → Except Err Unit × World
  | .createUser u a, w => acreate_user c u a w
  | .createTeam n, w => acreate_team c n w
  | .createChallenge n v cat d st ty, w => acreate_challenge c n v cat d st ty w
  | .createFlag ch fl fv dv ty, w => acreate_flag c ch fl fv dv ty w
  | .assignUser2Team u t, w => aassign_user2team c u t w
  | .removeUserFromTeam u, w => aremove_user_from_team c u w
  | .updateFlag n fv dv ty, w => aupdate_flag c n fv dv ty w
  | .deleteUser n, w => adelete_user c n w
  | .deleteTeam n, w => adelete_team c n w
  | .deleteChallenge n, w => adelete_challenge c n w
  | .deleteFlag n, w => adelete_flag c n w

/-- The world an operation leaves behind (exceptions do not roll state back). -/
def stepW (c : CtfdConnector) (op : Op) (w : World) : World :=
  (runSync c op w).2

/-- Run a sequence of façade operations, keeping the state each one (or its
exception) leaves behind. -/
def runOps (c : CtfdConnector) (ops : List Op) (w : World) : World :=
  ops.foldl (fun w0 op => stepW c op w0) w

/-! ### Association-list lemmas -/

theorem alookup_aset_self (l : List (String × Entry)) (n : String) (e : Entry) :
    alookup (aset l n e) n = some e := by
  induction l with
  | nil => simp [aset, alookup]
  | cons kv rest ih =>
      obtain ⟨k, v⟩ := kv
      by_cases h : k = n
      · simp [aset, h, alookup]
      · simp [aset, h, alookup, ih]

theorem alookup_aset_ne (l : List (String × Entry)) (n m : String) (e : Entry)
    (h : n ≠ m) : alookup (aset l n e) m = alookup l m := by
  induction l with
  | nil => simp [aset, alookup, h]
  | cons kv rest ih =>
      obtain ⟨k, v⟩ := kv
      by_cases hk : k = n
      · subst hk
        simp [aset, alookup, h]
      · simp [aset, hk, alookup, ih]

theorem alookup_aerase_ne (l : List (String × Entry)) (n m : String)
    (h : n ≠ m) : alookup (aerase l n) m = alookup l m := by
  induction l with
  | nil => simp [aerase]
  | cons kv rest ih =>
      obtain ⟨k, v⟩ := kv
      by_cases hk : k = n
      · subst hk
        simp [aerase, alookup, h]
      · simp [aerase, hk, alookup, ih]

theorem setTeamId_of_alookup (l : List (String × Entry)) (n : String)
    (t : Option Int) (e : Entry) (h : alookup l n = some e) :
    ∃ l2, setTeamId l n t = some l2 ∧
      alookup l2 n = some { e with team_id := t } ∧
      ∀ m, m ≠ n → alookup l2 m = alookup l m := by
  induction l with
  | nil => simp [alookup] at h
  | cons kv rest ih =>
      obtain ⟨k, v⟩ := kv
      by_cases hk : k = n
      · subst hk
        simp only [alookup, if_pos rfl] at h
        refine ⟨(k, { v with team_id := t }) :: rest, ?_, ?_, ?_⟩
        · simp [setTeamId]
        · cases h
          simp [alookup]
        · intro m hm
          simp [alookup, Ne.symm hm]
      · simp only [alookup, if_neg hk] at h
        obtain ⟨l2, hset, hl2, hother⟩ := ih h
        refine ⟨(k, v) :: l2, ?_, ?_, ?_⟩
        · simp [setTeamId, hk, hset]
        · simp [alookup, hk, hl2]
        · intro m hm
          by_cases hkm : k = m
          · simp [alookup, hkm]
          · simp [alookup, hkm, hother m hm]

theorem setTeamId_none_of_alookup_none (l : List (String × Entry)) (n : String)
    (t : Option Int) (h : alookup l n = none) : setTeamId l n t = none := by
  induction l with
  | nil => simp [setTeamId]
  | cons kv rest ih =>
      obtain ⟨k, v⟩ := kv
      by_cases hk : k = n
      · subst hk
        simp [alookup] at h
      · simp only [alookup, if_neg hk] at h
        simp [setTeamId, hk, ih h]

/-! ### Dispatcher characterizations -/

/-- The two decorators have the same body, written out twice in the source. -/
theorem aassign_host_eq_assign_host :
    aassign_host = assign_host := rfl

theorem assign_host_empty (c : CtfdConnector) (fn v p : String) (b : Option JVal)
    (w : World) (hp : w.pending = []) :
    assign_host c fn v p b w = (.error .transport, w) := by
  simp [assign_host, httpCall, hp, set_args_kwargs]

theorem assign_host_ok (c : CtfdConnector) (fn v p : String) (b : Option JVal)
    (w : World) (r : Response) (rest : List Response)
    (hp : w.pending = r :: rest)
    (hs : r.status_code = 200 ∨ r.status_code = 201) :
    assign_host c fn v p b w =
      (.ok r,
       { w with pending := rest,
                sent := w.sent ++ [{ verb := v, url := c.host ++ "/api/v1" ++ p,
                                     headers := [("Content-Type", "application/json"),
                                                 ("Authorization", "Token " ++ c.admin_token)],
                                     body := b }] }) := by
  simp [assign_host, httpCall, hp, set_args_kwargs, handle_bad_response, hs]

theorem assign_host_bad (c : CtfdConnector) (fn v p : String) (b : Option JVal)
    (w : World) (r : Response) (rest : List Response)
    (hp : w.pending = r :: rest)
    (hs : ¬(r.status_code = 200 ∨ r.status_code = 201)) :
    assign_host c fn v p b w =
      (.error (.ctfd (badResponseMsg fn (c.host ++ "/api/v1" ++ p) r.text)),
       { w with pending := rest,
                sent := w.sent ++ [{ verb := v, url := c.host ++ "/api/v1" ++ p,
                                     headers := [("Content-Type", "application/json"),
                                                 ("Authorization", "Token " ++ c.admin_token)],
                                     body := b }],
                warnings := w.warnings ++
                  [badResponseMsg fn (c.host ++ "/api/v1" ++ p) r.text] }) := by
  simp [assign_host, httpCall, hp, set_args_kwargs, handle_bad_response, hs]

/-- The cache does not change across a dispatch, whatever the outcome. -/
theorem assign_host_cache (c : CtfdConnector) (fn v p : String) (b : Option JVal)
    (w : World) : (assign_host c fn v p b w).2.cache = w.cache := by
  rcases hp : w.pending with _ | ⟨r, rest⟩
  · rw [assign_host_empty c fn v p b w hp]
  · by_cases hs : r.status_code = 200 ∨ r.status_code = 201
    · rw [assign_host_ok c fn v p b w r rest hp hs]
    · rw [assign_host_bad c fn v p b w r rest hp hs]

/-- A dispatch with a pending response records exactly that request, whatever
the response's status. -/
theorem assign_host_sent (c : CtfdConnector) (fn v p : String) (b : Option JVal)
    (w : World) (r : Response) (rest : List Response) (hp : w.pending = r :: rest) :
    (assign_host c fn v p b w).2.sent =
      w.sent ++ [{ verb := v, url := c.host ++ "/api/v1" ++ p,
                   headers := [("Content-Type", "application/json"),
                               ("Authorization", "Token " ++ c.admin_token)],
                   body := b }] := by
  by_cases hs : r.status_code = 200 ∨ r.status_code = 201
  · rw [assign_host_ok c fn v p b w r rest hp hs]
  · rw [assign_host_bad c fn v p b w r rest hp hs]

/-! ### Concrete fixtures used by witnesses and counterexamples -/

/-- Connector with token `tok` and host `http://h/` (stripped to `http://h`). -/
def exConnector : CtfdConnector := CtfdConnector.make "tok" "http://h/"

/-- A bare success response. -/
def exOk : Response := { status_code := 200, text := "", body := .jnull }

/-- A 500 failure response. -/
def exBad : Response := { status_code := 500, text := "boom", body := .jnull }

/-- A success response whose body carries `{"data": {"id": k}}`. -/
def exIdResp (k : Int) : Response :=
  { status_code := 200, text := "", body := .jobj [("data", .jobj [("id", .jint k)])] }

/-- A populated cache: user `u` (id 7) on team `A` (id 1); team `B` (id 2);
challenge `c` (id 5); flag `f` (id 9). -/
def exCache : Cache :=
  { users := [("u", { id := 7, team_id := some 1 })],
    teams := [("A", { id := 1 }), ("B", { id := 2 })],
    challenges := [("c", { id := 5 })],
    flags := [("f", { id := 9 })] }

/-- World over `exCache` with a chosen oracle of responses. -/
def exWorld (ps : List Response) : World :=
  { cache := exCache, pending := ps, sent := [], warnings := [], infos := [] }

/-- World over an empty cache with a chosen oracle of responses. -/
def exEmptyWorld (ps : List Response) : World :=
  { cache := { users := [], teams := [], challenges := [], flags := [] },
    pending := ps, sent := [], warnings := [], infos := [] }

/-! ### Claim C3 -/

/-- C3: for every dispatched request, status 200 or 201 returns the response
as success; any other status raises a `CTFdException` whose message is the
concatenation of fixed text with the method name, the full URL and the raw
response body, and that message is appended to the warning log before the
failure is raised. -/
theorem claim_C3_dispatch_classification (c : CtfdConnector) (fn v p : String)
    (b : Option JVal) (w : World) (r : Response) (rest : List Response)
    (hp : w.pending = r :: rest) :
    ((r.status_code = 200 ∨ r.status_code = 201) →
        (assign_host c fn v p b w).1 = .ok r) ∧
    (¬(r.status_code = 200 ∨ r.status_code = 201) →
        (assign_host c fn v p b w).1 =
          .error (.ctfd (badResponseMsg fn (c.host ++ "/api/v1" ++ p) r.text)) ∧
        (assign_host c fn v p b w).2.warnings =
          w.warnings ++ [badResponseMsg fn (c.host ++ "/api/v1" ++ p) r.text] ∧
        ∃ s1 s2 s3, badResponseMsg fn (c.host ++ "/api/v1" ++ p) r.text =
          s1 ++ fn ++ s2 ++ (c.host ++ "/api/v1" ++ p) ++ s3 ++ r.text) := by
  constructor
  · intro hs
    rw [assign_host_ok c fn v p b w r rest hp hs]
  · intro hs
    rw [assign_host_bad c fn v p b w r rest hp hs]
    exact ⟨rfl, rfl, "Unable to get response in method ", " from url ",
           "  in CTFd: ", rfl⟩

/-- Witness for C3 at a concrete bad response. -/
theorem claim_C3_dispatch_classification_witness :
    (assign_host exConnector "post" "POST" "/users" none (exWorld [exBad])).1 =
      .error (.ctfd (badResponseMsg "post" (exConnector.host ++ "/api/v1" ++ "/users")
        exBad.text)) := by
  exact ((claim_C3_dispatch_classification exConnector "post" "POST" "/users" none
    (exWorld [exBad]) exBad [] rfl).2 (by decide)).1

/-! ### Claim C2 -/

/-- C2: refuted on the code — the member-removal request path in
`_remove_user_from_team_request` lacks the leading slash, so for a cached
user on team 1 the removal is sent to `<host>/api/v1teams/1/members`,
not `<host>/api/v1/teams/1/members` as every other request (and the wire
protocol) would have it. -/
theorem claim_C2_removal_url_missing_slash :
    (remove_user_from_team exConnector "u" (exWorld [exOk])).2.sent =
      [{ verb := "DELETE", url := "http://h/api/v1teams/1/members",
         headers := [("Content-Type", "application/json"),
                     ("Authorization", "Token tok")],
         body := some (.jobj [("user_id", .jint 7)]) }] ∧
    "http://h/api/v1teams/1/members" ≠ "http://h/api/v1/teams/1/members" := by
  exact ⟨rfl, by decide⟩

/-! ### Claim C7 -/

/-- C7: when the cached user's `team_id` already equals the target team's
cached id, `assign_user2team` returns successfully, makes no network call,
and leaves the cache (and the pending oracle) untouched. -/
theorem claim_C7_assign_same_team_noop (c : CtfdConnector) (u t : String)
    (w : World) (eu et : Entry)
    (hu : alookup w.cache.users u = some eu)
    (ht : alookup w.cache.teams t = some et)
    (heq : eu.team_id = some et.id) :
    (assign_user2team c u t w).1 = .ok () ∧
    (assign_user2team c u t w).2.cache = w.cache ∧
    (assign_user2team c u t w).2.sent = w.sent ∧
    (assign_user2team c u t w).2.pending = w.pending := by
  simp [assign_user2team, get_field_from_storage, Cache.coll, hu, ht, heq]

/-- Witness for C7: user `u` is on team `A` (id 1); re-assigning to `A` is a
no-op. -/
theorem claim_C7_assign_same_team_noop_witness :
    (assign_user2team exConnector "u" "A" (exWorld [])).1 = .ok () ∧
    (assign_user2team exConnector "u" "A" (exWorld [])).2.cache = (exWorld []).cache ∧
    (assign_user2team exConnector "u" "A" (exWorld [])).2.sent = (exWorld []).sent ∧
    (assign_user2team exConnector "u" "A" (exWorld [])).2.pending = (exWorld []).pending :=
  claim_C7_assign_same_team_noop exConnector "u" "A" (exWorld [])
    { id := 7, team_id := some 1 } { id := 1 } rfl rfl rfl

/-! ### Claim C10 -/

/-- With the flag present, the world `update_flag` leaves is exactly the world
of the PATCH dispatch (both on success and on failure). -/
theorem update_flag_world (c : CtfdConnector) (n fv dv tv : String) (w : World)
    (e : Entry) (hf : alookup w.cache.flags n = some e) :
    (update_flag c n fv dv tv w).2 =
      (assign_host c "patch" "PATCH" ("/flags/" ++ toString e.id)
        (some (.jobj [("content", .jstr fv), ("data", .jstr dv),
                      ("type", .jstr tv), ("id", .jint e.id)])) w).2 := by
  simp only [update_flag, update_flag_request, get_field_from_storage, Cache.coll, hf,
    CtfdConnector.patch]
  split <;> rename_i heq <;> simp [heq]

/-- Same as `update_flag_world` for the async variant. -/
theorem aupdate_flag_world (c : CtfdConnector) (n fv dv tv : String) (w : World)
    (e : Entry) (hf : alookup w.cache.flags n = some e) :
    (aupdate_flag c n fv dv tv w).2 =
      (assign_host c "apatch" "PATCH" ("/flags/" ++ toString e.id)
        (some (.jobj [("content", .jstr fv), ("data", .jstr dv),
                      ("type", .jstr tv), ("id", .jint e.id)])) w).2 := by
  simp only [aupdate_flag, update_flag_request, get_field_from_storage, Cache.coll, hf,
    CtfdConnector.apatch, aassign_host_eq_assign_host]
  split <;> rename_i heq <;> simp [heq]

/-- C10: for a flag present in the cache, `update_flag` (and `aupdate_flag`)
never modifies the cache — whatever the PATCH outcome — and issues exactly
the one PATCH request built from the flag's cached id. -/
theorem claim_C10_update_flag_frame (c : CtfdConnector) (n fv dv tv : String)
    (w : World) (e : Entry) (r : Response) (rest : List Response)
    (hf : alookup w.cache.flags n = some e)
    (hp : w.pending = r :: rest) :
    (update_flag c n fv dv tv w).2.cache = w.cache ∧
    (aupdate_flag c n fv dv tv w).2.cache = w.cache ∧
    (update_flag c n fv dv tv w).2.sent = w.sent ++
      [{ verb := "PATCH", url := c.host ++ "/api/v1" ++ ("/flags/" ++ toString e.id),
         headers := [("Content-Type", "application/json"),
                     ("Authorization", "Token " ++ c.admin_token)],
         body := some (.jobj [("content", .jstr fv), ("data", .jstr dv),
                              ("type", .jstr tv), ("id", .jint e.id)]) }] ∧
    (aupdate_flag c n fv dv tv w).2.sent = w.sent ++
      [{ verb := "PATCH", url := c.host ++ "/api/v1" ++ ("/flags/" ++ toString e.id),
         headers := [("Content-Type", "application/json"),
                     ("Authorization", "Token " ++ c.admin_token)],
         body := some (.jobj [("content", .jstr fv), ("data", .jstr dv),
                              ("type", .jstr tv), ("id", .jint e.id)]) }] := by
  have h1 := update_flag_world c n fv dv tv w e hf
  have h2 := aupdate_flag_world c n fv dv tv w e hf
  refine ⟨?_, ?_, ?_, ?_⟩
  · rw [h1, assign_host_cache]
  · rw [h2, assign_host_cache]
  · rw [h1, assign_host_sent c "patch" "PATCH" _ _ w r rest hp]
  · rw [h2, assign_host_sent c "apatch" "PATCH" _ _ w r rest hp]

/-- Witness for C10 on the concrete cache (flag `f`, id 9) with a failing
PATCH response. -/
theorem claim_C10_update_flag_frame_witness :
    (update_flag exConnector "f" "x" "ci" "static" (exWorld [exBad])).2.cache =
      (exWorld [exBad]).cache ∧
    (aupdate_flag exConnector "f" "x" "ci" "static" (exWorld [exBad])).2.cache =
      (exWorld [exBad]).cache ∧
    (update_flag exConnector "f" "x" "ci" "static" (exWorld [exBad])).2.sent =
      (exWorld [exBad]).sent ++
      [{ verb := "PATCH", url := "http://h/api/v1/flags/9",
         headers := [("Content-Type", "application/json"),
                     ("Authorization", "Token tok")],
         body := some (.jobj [("content", .jstr "x"), ("data", .jstr "ci"),
                              ("type", .jstr "static"), ("id", .jint 9)]) }] ∧
    (aupdate_flag exConnector "f" "x" "ci" "static" (exWorld [exBad])).2.sent =
      (exWorld [exBad]).sent ++
      [{ verb := "PATCH", url := "http://h/api/v1/flags/9",
         headers := [("Content-Type", "application/json"),
                     ("Authorization", "Token tok")],
         body := some (.jobj [("content", .jstr "x"), ("data", .jstr "ci"),
                              ("type", .jstr "static"), ("id", .jint 9)]) }] :=
  claim_C10_update_flag_frame exConnector "f" "x" "ci" "static" (exWorld [exBad])
    { id := 9 } exBad [] rfl rfl

/-! ### Success characterizations of the create operations -/

theorem create_user_ok (c : CtfdConnector) (u : String) (a : Bool) (w : World)
    (r : Response) (rest : List Response) (k : Int)
    (habs : alookup w.cache.users u = none)
    (hp : w.pending = r :: rest)
    (hs : r.status_code = 200 ∨ r.status_code = 201)
    (hid : responseDataId r = some k) :
    (create_user c u a w).1 = .ok () ∧
    (create_user c u a w).2.cache.users = aset w.cache.users u { id := k, team_id := none } ∧
    (create_user c u a w).2.cache.teams = w.cache.teams ∧
    (create_user c u a w).2.cache.challenges = w.cache.challenges ∧
    (create_user c u a w).2.cache.flags = w.cache.flags := by
  have hb := fun b => assign_host_ok c "post" "POST" "/users" b w r rest hp hs
  simp only [create_user, create_user_request, exist_in_field, Cache.coll, habs,
    CtfdConnector.post, Option.isSome_none, Bool.false_eq_true, if_false]
  rw [hb]
  simp [create_user_core, hid, Cache.setColl]

theorem create_team_ok (c : CtfdConnector) (n : String) (w : World)
    (r : Response) (rest : List Response) (k : Int)
    (habs : alookup w.cache.teams n = none)
    (hp : w.pending = r :: rest)
    (hs : r.status_code = 200 ∨ r.status_code = 201)
    (hid : responseDataId r = some k) :
    (create_team c n w).1 = .ok () ∧
    (create_team c n w).2.cache.teams = aset w.cache.teams n { id := k, team_id := none } ∧
    (create_team c n w).2.cache.users = w.cache.users ∧
    (create_team c n w).2.cache.challenges = w.cache.challenges ∧
    (create_team c n w).2.cache.flags = w.cache.flags := by
  have hb := fun b => assign_host_ok c "post" "POST" "/teams" b w r rest hp hs
  simp only [create_team, create_team_request, exist_in_field, Cache.coll, habs,
    CtfdConnector.post, Option.isSome_none, Bool.false_eq_true, if_false]
  rw [hb]
  simp [create_team_core, update_storage_field_from_response, hid, Cache.setColl, Cache.coll]

theorem create_challenge_ok (c : CtfdConnector) (n : String) (v : Int)
    (cat d st ty : String) (w : World)
    (r : Response) (rest : List Response) (k : Int)
    (habs : alookup w.cache.challenges n = none)
    (hp : w.pending = r :: rest)
    (hs : r.status_code = 200 ∨ r.status_code = 201)
    (hid : responseDataId r = some k) :
    (create_challenge c n v cat d st ty w).1 = .ok () ∧
    (create_challenge c n v cat d st ty w).2.cache.challenges =
      aset w.cache.challenges n { id := k, team_id := none } ∧
    (create_challenge c n v cat d st ty w).2.cache.users = w.cache.users ∧
    (create_challenge c n v cat d st ty w).2.cache.teams = w.cache.teams ∧
    (create_challenge c n v cat d st ty w).2.cache.flags = w.cache.flags := by
  have hb := fun b => assign_host_ok c "post" "POST" "/challenges" b w r rest hp hs
  simp only [create_challenge, create_challenge_request, exist_in_field, Cache.coll, habs,
    CtfdConnector.post, Option.isSome_none, Bool.false_eq_true, if_false]
  rw [hb]
  simp [create_challenge_core, update_storage_field_from_response, hid, Cache.setColl, Cache.coll]

theorem create_flag_ok (c : CtfdConnector) (ch fl fv dv ty : String) (w : World)
    (ech : Entry) (r : Response) (rest : List Response) (k : Int)
    (hch : alookup w.cache.challenges ch = some ech)
    (habs : alookup w.cache.flags fl = none)
    (hp : w.pending = r :: rest)
    (hs : r.status_code = 200 ∨ r.status_code = 201)
    (hid : responseDataId r = some k) :
    (create_flag c ch fl fv dv ty w).1 = .ok () ∧
    (create_flag c ch fl fv dv ty w).2.cache.flags =
      aset w.cache.flags fl { id := k, team_id := none } ∧
    (create_flag c ch fl fv dv ty w).2.cache.users = w.cache.users ∧
    (create_flag c ch fl fv dv ty w).2.cache.teams = w.cache.teams ∧
    (create_flag c ch fl fv dv ty w).2.cache.challenges = w.cache.challenges := by
  have hb := fun b => assign_host_ok c "post" "POST" "/flags" b w r rest hp hs
  simp only [create_flag, create_flag_request, get_field_from_storage, Cache.coll, hch,
    exist_in_field, habs, Option.isSome_none, Bool.false_eq_true, if_false,
    CtfdConnector.post]
  rw [hb]
  simp [create_flag_core, update_storage_field_from_response, hid, Cache.setColl, Cache.coll]

/-! ### Claim C8 -/

/-- C8: for every entity kind and name not yet cached, a successful create
whose response body carries `{"data": {"id": k}}` leaves a cached record
under that name whose `id` equals `k`, and the name then exists in the
collection. -/
theorem claim_C8_create_then_get (c : CtfdConnector) (w : World)
    (r : Response) (rest : List Response) (k : Int)
    (hp : w.pending = r :: rest)
    (hs : r.status_code = 200 ∨ r.status_code = 201)
    (hid : responseDataId r = some k) :
    (∀ u a, alookup w.cache.users u = none →
        (create_user c u a w).1 = .ok () ∧
        (∃ e, alookup (create_user c u a w).2.cache.users u = some e ∧ e.id = k) ∧
        exist_in_field .users u (create_user c u a w).2 = true) ∧
    (∀ n, alookup w.cache.teams n = none →
        (create_team c n w).1 = .ok () ∧
        (∃ e, alookup (create_team c n w).2.cache.teams n = some e ∧ e.id = k) ∧
        exist_in_field .teams n (create_team c n w).2 = true) ∧
    (∀ n v cat d st ty, alookup w.cache.challenges n = none →
        (create_challenge c n v cat d st ty w).1 = .ok () ∧
        (∃ e, alookup (create_challenge c n v cat d st ty w).2.cache.challenges n = some e ∧
          e.id = k) ∧
        exist_in_field .challenges n (create_challenge c n v cat d st ty w).2 = true) ∧
    (∀ ch fl fv dv ty ech, alookup w.cache.challenges ch = some ech →
        alookup w.cache.flags fl = none →
        (create_flag c ch fl fv dv ty w).1 = .ok () ∧
        (∃ e, alookup (create_flag c ch fl fv dv ty w).2.cache.flags fl = some e ∧ e.id = k) ∧
        exist_in_field .flags fl (create_flag c ch fl fv dv ty w).2 = true) := by
  refine ⟨?_, ?_, ?_, ?_⟩
  · intro u a habs
    obtain ⟨h1, h2, _⟩ := create_user_ok c u a w r rest k habs hp hs hid
    refine ⟨h1, ⟨{ id := k, team_id := none }, ?_, rfl⟩, ?_⟩
    · rw [h2]; exact alookup_aset_self _ _ _
    · simp [exist_in_field, Cache.coll, h2, alookup_aset_self]
  · intro n habs
    obtain ⟨h1, h2, _⟩ := create_team_ok c n w r rest k habs hp hs hid
    refine ⟨h1, ⟨{ id := k, team_id := none }, ?_, rfl⟩, ?_⟩
    · rw [h2]; exact alookup_aset_self _ _ _
    · simp [exist_in_field, Cache.coll, h2, alookup_aset_self]
  · intro n v cat d st ty habs
    obtain ⟨h1, h2, _⟩ := create_challenge_ok c n v cat d st ty w r rest k habs hp hs hid
    refine ⟨h1, ⟨{ id := k, team_id := none }, ?_, rfl⟩, ?_⟩
    · rw [h2]; exact alookup_aset_self _ _ _
    · simp [exist_in_field, Cache.coll, h2, alookup_aset_self]
  · intro ch fl fv dv ty ech hch habs
    obtain ⟨h1, h2, _⟩ := create_flag_ok c ch fl fv dv ty w ech r rest k hch habs hp hs hid
    refine ⟨h1, ⟨{ id := k, team_id := none }, ?_, rfl⟩, ?_⟩
    · rw [h2]; exact alookup_aset_self _ _ _
    · simp [exist_in_field, Cache.coll, h2, alookup_aset_self]

/-- Witness for C8: creating user `alice` against a mock `{"data":{"id":7}}`
response caches `alice` with id 7; likewise for a team, a challenge and a
flag (flag `g` under the cached challenge `c`). -/
theorem claim_C8_create_then_get_witness :
    ((create_user exConnector "alice" false (exEmptyWorld [exIdResp 7])).1 = .ok () ∧
      (∃ e, alookup (create_user exConnector "alice" false
          (exEmptyWorld [exIdResp 7])).2.cache.users "alice" = some e ∧ e.id = 7) ∧
      exist_in_field .users "alice"
        (create_user exConnector "alice" false (exEmptyWorld [exIdResp 7])).2 = true) ∧
    ((create_team exConnector "red" (exEmptyWorld [exIdResp 3])).1 = .ok () ∧
      (∃ e, alookup (create_team exConnector "red"
          (exEmptyWorld [exIdResp 3])).2.cache.teams "red" = some e ∧ e.id = 3) ∧
      exist_in_field .teams "red"
        (create_team exConnector "red" (exEmptyWorld [exIdResp 3])).2 = true) ∧
    ((create_flag exConnector "c" "g" "v" "ci" "static" (exWorld [exIdResp 4])).1 = .ok () ∧
      (∃ e, alookup (create_flag exConnector "c" "g" "v" "ci" "static"
          (exWorld [exIdResp 4])).2.cache.flags "g" = some e ∧ e.id = 4) ∧
      exist_in_field .flags "g"
        (create_flag exConnector "c" "g" "v" "ci" "static" (exWorld [exIdResp 4])).2 = true) := by
  refine ⟨?_, ?_, ?_⟩
  · exact (claim_C8_create_then_get exConnector (exEmptyWorld [exIdResp 7])
      (exIdResp 7) [] 7 rfl (Or.inl rfl) rfl).1 "alice" false rfl
  · exact (claim_C8_create_then_get exConnector (exEmptyWorld [exIdResp 3])
      (exIdResp 3) [] 3 rfl (Or.inl rfl) rfl).2.1 "red" rfl
  · exact ((claim_C8_create_then_get exConnector (exWorld [exIdResp 4])
      (exIdResp 4) [] 4 rfl (Or.inl rfl) rfl).2.2.2) "c" "g" "v" "ci" "static"
      { id := 5 } (by decide) (by decide)

/-! ### Claim C5 -/

/-- C5 as stated is refuted at one corner: with flag `f` already cached but
the referenced challenge name absent, `create_flag` raises the challenge's
not-found error, not the duplicate-name error for `f` (the challenge lookup
precedes the duplicate check in `_create_flag_request`). -/
theorem claim_C5_counterexample :
    (create_flag exConnector "nochal" "f" "v" "ci" "static" (exWorld [])).1 =
      .error (.ctfd "nochal not found in storage `challenges`") ∧
    "nochal not found in storage `challenges`" ≠ "Flag f already registered in CTFd" :=
  ⟨rfl, by decide⟩

/-- C5 (amended): create on a present name raises the duplicate-name error —
for `create_flag` provided the referenced challenge is cached, the absent
challenge raising its not-found error first — and update/delete/assign on an
absent name raise the not-found error; in every case no request is issued, no
response consumed, and the cache is unchanged. -/
theorem claim_C5_precondition_failures (c : CtfdConnector) (w : World) :
    (∀ u a e, alookup w.cache.users u = some e →
        (create_user c u a w).1 = .error (.ctfd ("User " ++ u ++ " already registered in CTFd")) ∧
        (create_user c u a w).2.cache = w.cache ∧
        (create_user c u a w).2.sent = w.sent ∧
        (create_user c u a w).2.pending = w.pending) ∧
    (∀ n e, alookup w.cache.teams n = some e →
        (create_team c n w).1 = .error (.ctfd ("Team " ++ n ++ " already registered in CTFd")) ∧
        (create_team c n w).2.cache = w.cache ∧
        (create_team c n w).2.sent = w.sent ∧
        (create_team c n w).2.pending = w.pending) ∧
    (∀ n v cat d st ty e, alookup w.cache.challenges n = some e →
        (create_challenge c n v cat d st ty w).1 =
          .error (.ctfd ("Challenge " ++ n ++ " already registered in CTFd")) ∧
        (create_challenge c n v cat d st ty w).2.cache = w.cache ∧
        (create_challenge c n v cat d st ty w).2.sent = w.sent ∧
        (create_challenge c n v cat d st ty w).2.pending = w.pending) ∧
    (∀ ch fl fv dv ty ech efl, alookup w.cache.challenges ch = some ech →
        alookup w.cache.flags fl = some efl →
        (create_flag c ch fl fv dv ty w).1 =
          .error (.ctfd ("Flag " ++ fl ++ " already registered in CTFd")) ∧
        (create_flag c ch fl fv dv ty w).2.cache = w.cache ∧
        (create_flag c ch fl fv dv ty w).2.sent = w.sent ∧
        (create_flag c ch fl fv dv ty w).2.pending = w.pending) ∧
    (∀ ch fl fv dv ty, alookup w.cache.challenges ch = none →
        (create_flag c ch fl fv dv ty w).1 =
          .error (.ctfd (notFoundMsg ch "challenges")) ∧
        (create_flag c ch fl fv dv ty w).2.cache = w.cache ∧
        (create_flag c ch fl fv dv ty w).2.sent = w.sent ∧
        (create_flag c ch fl fv dv ty w).2.pending = w.pending) ∧
    (∀ n fv dv ty, alookup w.cache.flags n = none →
        (update_flag c n fv dv ty w).1 =
          .error (.ctfd (notFoundMsg n "flags")) ∧
        (update_flag c n fv dv ty w).2.cache = w.cache ∧
        (update_flag c n fv dv ty w).2.sent = w.sent ∧
        (update_flag c n fv dv ty w).2.pending = w.pending) ∧
    (∀ n, alookup w.cache.users n = none →
        (delete_user c n w).1 = .error (.ctfd (notFoundMsg n "users")) ∧
        (delete_user c n w).2.cache = w.cache ∧
        (delete_user c n w).2.sent = w.sent ∧
        (delete_user c n w).2.pending = w.pending) ∧
    (∀ n, alookup w.cache.teams n = none →
        (delete_team c n w).1 = .error (.ctfd (notFoundMsg n "teams")) ∧
        (delete_team c n w).2.cache = w.cache ∧
        (delete_team c n w).2.sent = w.sent ∧
        (delete_team c n w).2.pending = w.pending) ∧
    (∀ n, alookup w.cache.challenges n = none →
        (delete_challenge c n w).1 =
          .error (.ctfd (notFoundMsg n "challenges")) ∧
        (delete_challenge c n w).2.cache = w.cache ∧
        (delete_challenge c n w).2.sent = w.sent ∧
        (delete_challenge c n w).2.pending = w.pending) ∧
    (∀ n, alookup w.cache.flags n = none →
        (delete_flag c n w).1 = .error (.ctfd (notFoundMsg n "flags")) ∧
        (delete_flag c n w).2.cache = w.cache ∧
        (delete_flag c n w).2.sent = w.sent ∧
        (delete_flag c n w).2.pending = w.pending) ∧
    (∀ u t, alookup w.cache.users u = none →
        (assign_user2team c u t w).1 = .error (.ctfd (notFoundMsg u "users")) ∧
        (assign_user2team c u t w).2.cache = w.cache ∧
        (assign_user2team c u t w).2.sent = w.sent ∧
        (assign_user2team c u t w).2.pending = w.pending) ∧
    (∀ u t e, alookup w.cache.users u = some e → alookup w.cache.teams t = none →
        (assign_user2team c u t w).1 = .error (.ctfd (notFoundMsg t "teams")) ∧
        (assign_user2team c u t w).2.cache = w.cache ∧
        (assign_user2team c u t w).2.sent = w.sent ∧
        (assign_user2team c u t w).2.pending = w.pending) := by
  refine ⟨?_, ?_, ?_, ?_, ?_, ?_, ?_, ?_, ?_, ?_, ?_, ?_⟩
  · intro u a e hex
    simp [create_user, create_user_request, exist_in_field, Cache.coll, hex]
  · intro n e hex
    simp [create_team, create_team_request, exist_in_field, Cache.coll, hex]
  · intro n v cat d st ty e hex
    simp [create_challenge, create_challenge_request, exist_in_field, Cache.coll, hex]
  · intro ch fl fv dv ty ech efl hch hex
    simp [create_flag, create_flag_request, get_field_from_storage, exist_in_field,
      Cache.coll, hch, hex]
  · intro ch fl fv dv ty hch
    simp [create_flag, create_flag_request, get_field_from_storage, Cache.coll, hch, notFoundMsg, Kind.str]
  · intro n fv dv ty habs
    simp [update_flag, update_flag_request, get_field_from_storage, Cache.coll, habs, Kind.str]
  · intro n habs
    simp [delete_user, get_field_from_storage, Cache.coll, habs, Kind.str]
  · intro n habs
    simp [delete_team, get_field_from_storage, Cache.coll, habs, Kind.str]
  · intro n habs
    simp [delete_challenge, get_field_from_storage, Cache.coll, habs, Kind.str]
  · intro n habs
    simp [delete_flag, delete_flag_request, get_field_from_storage, Cache.coll, habs, Kind.str]
  · intro u t habs
    simp [assign_user2team, get_field_from_storage, Cache.coll, habs, Kind.str]
  · intro u t e hu hta
    simp [assign_user2team, get_field_from_storage, Cache.coll, hu, hta, Kind.str]

/-- Witness for C5 at concrete inputs: duplicate `create_user u`, duplicate
`create_flag f` under cached challenge `c`, `update_flag` on an absent flag,
and `assign_user2team` to an absent team. -/
theorem claim_C5_precondition_failures_witness :
    ((create_user exConnector "u" false (exWorld [])).1 =
        .error (.ctfd ("User " ++ "u" ++ " already registered in CTFd")) ∧
      (create_user exConnector "u" false (exWorld [])).2.cache = (exWorld []).cache ∧
      (create_user exConnector "u" false (exWorld [])).2.sent = (exWorld []).sent ∧
      (create_user exConnector "u" false (exWorld [])).2.pending = (exWorld []).pending) ∧
    ((create_flag exConnector "c" "f" "v" "ci" "static" (exWorld [])).1 =
        .error (.ctfd ("Flag " ++ "f" ++ " already registered in CTFd")) ∧
      (create_flag exConnector "c" "f" "v" "ci" "static" (exWorld [])).2.cache =
        (exWorld []).cache ∧
      (create_flag exConnector "c" "f" "v" "ci" "static" (exWorld [])).2.sent =
        (exWorld []).sent ∧
      (create_flag exConnector "c" "f" "v" "ci" "static" (exWorld [])).2.pending =
        (exWorld []).pending) ∧
    ((update_flag exConnector "g" "x" "ci" "static" (exWorld [])).1 =
        .error (.ctfd (notFoundMsg "g" "flags")) ∧
      (update_flag exConnector "g" "x" "ci" "static" (exWorld [])).2.cache =
        (exWorld []).cache ∧
      (update_flag exConnector "g" "x" "ci" "static" (exWorld [])).2.sent =
        (exWorld []).sent ∧
      (update_flag exConnector "g" "x" "ci" "static" (exWorld [])).2.pending =
        (exWorld []).pending) ∧
    ((assign_user2team exConnector "u" "Z" (exWorld [])).1 =
        .error (.ctfd (notFoundMsg "Z" "teams")) ∧
      (assign_user2team exConnector "u" "Z" (exWorld [])).2.cache = (exWorld []).cache ∧
      (assign_user2team exConnector "u" "Z" (exWorld [])).2.sent = (exWorld []).sent ∧
      (assign_user2team exConnector "u" "Z" (exWorld [])).2.pending = (exWorld []).pending) := by
  refine ⟨?_, ?_, ?_, ?_⟩
  · exact (claim_C5_precondition_failures exConnector (exWorld [])).1 "u" false
      { id := 7, team_id := some 1 } rfl
  · exact (claim_C5_precondition_failures exConnector (exWorld [])).2.2.2.1 "c" "f" "v"
      "ci" "static" { id := 5 } { id := 9 } rfl (by decide)
  · exact (claim_C5_precondition_failures exConnector (exWorld [])).2.2.2.2.2.1 "g" "x"
      "ci" "static" (by decide)
  · exact (claim_C5_precondition_failures exConnector (exWorld [])).2.2.2.2.2.2.2.2.2.2.2
      "u" "Z" { id := 7, team_id := some 1 } rfl (by decide)

/-! ### Claim C6 -/

/-- Successful removal of a user currently on team `ta`: one DELETE request
(note the missing leading slash in the path built by the source) and the
cached `team_id` reset to null. -/
theorem remove_user_from_team_ok (c : CtfdConnector) (u : String) (w : World)
    (eu : Entry) (ta : Int) (l1 : List (String × Entry))
    (r : Response) (rest : List Response)
    (hu : alookup w.cache.users u = some eu)
    (hta : eu.team_id = some ta)
    (hset : setTeamId w.cache.users u none = some l1)
    (hp : w.pending = r :: rest)
    (hs : r.status_code = 200 ∨ r.status_code = 201) :
    remove_user_from_team c u w =
      (.ok (),
       { cache := w.cache.setColl Kind.users l1,
         pending := rest,
         sent := w.sent ++
           [{ verb := "DELETE",
              url := c.host ++ "/api/v1" ++ ("teams/" ++ toString ta ++ "/members"),
              headers := [("Content-Type", "application/json"),
                          ("Authorization", "Token " ++ c.admin_token)],
              body := some (.jobj [("user_id", .jint eu.id)]) }],
         warnings := w.warnings,
         infos := w.infos }) := by
  have hb := fun b => assign_host_ok c "delete" "DELETE"
    ("teams/" ++ toString ta ++ "/members") b w r rest hp hs
  simp only [remove_user_from_team, remove_user_from_team_request, get_field_from_storage,
    Cache.coll, hu, hta, CtfdConnector.delete]
  rw [hb]
  simp [remove_user_from_team_core, hset]

/-- C6: a user cached on team `ta` reassigned to a team with a different id
gets exactly one member-removal call (for the old team) and one member-addition
call (to the new team, body `{"user_id": <user id>}`); afterwards the cached
`team_id` equals the new team's id and the teams collection is unchanged. -/
theorem claim_C6_assign_switch (c : CtfdConnector) (u t : String) (w : World)
    (eu et : Entry) (ta : Int) (r1 r2 : Response) (rest : List Response)
    (hu : alookup w.cache.users u = some eu)
    (ht : alookup w.cache.teams t = some et)
    (hta : eu.team_id = some ta)
    (hne : ta ≠ et.id)
    (hp : w.pending = r1 :: r2 :: rest)
    (hs1 : r1.status_code = 200 ∨ r1.status_code = 201)
    (hs2 : r2.status_code = 200 ∨ r2.status_code = 201) :
    (assign_user2team c u t w).1 = .ok () ∧
    (assign_user2team c u t w).2.sent = w.sent ++
      [{ verb := "DELETE",
         url := c.host ++ "/api/v1" ++ ("teams/" ++ toString ta ++ "/members"),
         headers := [("Content-Type", "application/json"),
                     ("Authorization", "Token " ++ c.admin_token)],
         body := some (.jobj [("user_id", .jint eu.id)]) },
       { verb := "POST",
         url := c.host ++ "/api/v1" ++ ("/teams/" ++ toString et.id ++ "/members"),
         headers := [("Content-Type", "application/json"),
                     ("Authorization", "Token " ++ c.admin_token)],
         body := some (.jobj [("user_id", .jint eu.id)]) }] ∧
    alookup (assign_user2team c u t w).2.cache.users u =
      some { eu with team_id := some et.id } ∧
    (assign_user2team c u t w).2.cache.teams = w.cache.teams := by
  obtain ⟨l1, hset1, hl1, hoth1⟩ := setTeamId_of_alookup w.cache.users u none eu hu
  obtain ⟨l2, hset2, hl2, hoth2⟩ :=
    setTeamId_of_alookup l1 u (some et.id) { eu with team_id := none } hl1
  have hrm := remove_user_from_team_ok c u w eu ta l1 r1 (r2 :: rest) hu hta hset1 hp hs1
  have hb2 := fun b => assign_host_ok c "post" "POST"
    ("/teams/" ++ toString et.id ++ "/members") b
    { cache := w.cache.setColl Kind.users l1,
      pending := r2 :: rest,
      sent := w.sent ++
        [{ verb := "DELETE",
           url := c.host ++ "/api/v1" ++ ("teams/" ++ toString ta ++ "/members"),
           headers := [("Content-Type", "application/json"),
                       ("Authorization", "Token " ++ c.admin_token)],
           body := some (.jobj [("user_id", .jint eu.id)]) }],
      warnings := w.warnings,
      infos := w.infos } r2 rest rfl hs2
  simp only [assign_user2team, get_field_from_storage, Cache.coll, hu, ht, hta,
    Option.some.injEq, hne, if_false, ne_eq, reduceCtorEq, not_false_eq_true, if_true,
    CtfdConnector.post]
  rw [hrm]
  simp only []
  rw [hb2]
  simp only [Cache.setColl, Cache.coll] at hset2 ⊢
  simp [hset2, hl2, Cache.setColl, hl1]

/-- Witness for C6: user `u` (id 7) on team `A` (id 1) reassigned to team `B`
(id 2) with two success responses. -/
theorem claim_C6_assign_switch_witness :
    (assign_user2team exConnector "u" "B" (exWorld [exOk, exOk])).1 = .ok () ∧
    (assign_user2team exConnector "u" "B" (exWorld [exOk, exOk])).2.sent =
      (exWorld [exOk, exOk]).sent ++
      [{ verb := "DELETE", url := "http://h/api/v1teams/1/members",
         headers := [("Content-Type", "application/json"),
                     ("Authorization", "Token tok")],
         body := some (.jobj [("user_id", .jint 7)]) },
       { verb := "POST", url := "http://h/api/v1/teams/2/members",
         headers := [("Content-Type", "application/json"),
                     ("Authorization", "Token tok")],
         body := some (.jobj [("user_id", .jint 7)]) }] ∧
    alookup (assign_user2team exConnector "u" "B" (exWorld [exOk, exOk])).2.cache.users "u" =
      some { id := 7, team_id := some 2 } ∧
    (assign_user2team exConnector "u" "B" (exWorld [exOk, exOk])).2.cache.teams =
      (exWorld [exOk, exOk]).cache.teams :=
  claim_C6_assign_switch exConnector "u" "B" (exWorld [exOk, exOk])
    { id := 7, team_id := some 1 } { id := 2 } 1 exOk exOk []
    rfl (by decide) rfl (by decide) rfl (Or.inl rfl) (Or.inl rfl)

/-! ### Claim C1 -/

/-- Failed removal call: the error propagates before the cached `team_id` is
touched. -/
theorem remove_user_from_team_bad (c : CtfdConnector) (u : String) (w : World)
    (eu : Entry) (ta : Int) (r : Response) (rest : List Response)
    (hu : alookup w.cache.users u = some eu)
    (hta : eu.team_id = some ta)
    (hp : w.pending = r :: rest)
    (hs : ¬(r.status_code = 200 ∨ r.status_code = 201)) :
    (remove_user_from_team c u w).1 =
      .error (.ctfd (badResponseMsg "delete"
        (c.host ++ "/api/v1" ++ ("teams/" ++ toString ta ++ "/members")) r.text)) ∧
    (remove_user_from_team c u w).2.cache = w.cache := by
  have hb := fun b => assign_host_bad c "delete" "DELETE"
    ("teams/" ++ toString ta ++ "/members") b w r rest hp hs
  simp only [remove_user_from_team, remove_user_from_team_request, get_field_from_storage,
    Cache.coll, hu, hta, CtfdConnector.delete]
  rw [hb]
  simp

/-- C1 as stated is refuted: reassigning user `u` from team `A` to team `B`
where the removal call succeeds and the addition call returns 500 raises the
remote-call error but leaves the cache modified (`team_id` nulled). -/
theorem claim_C1_counterexample :
    (assign_user2team exConnector "u" "B" (exWorld [exOk, exBad])).1 =
      .error (.ctfd (badResponseMsg "post" "http://h/api/v1/teams/2/members" "boom")) ∧
    (assign_user2team exConnector "u" "B" (exWorld [exOk, exBad])).2.cache ≠
      (exWorld [exOk, exBad]).cache :=
  ⟨rfl, by decide⟩

/-- C1 (amended): whenever the first remote call an operation makes returns a
non-success status, the operation raises the remote-call `CTFdException` and
the cache is identical to the cache before the operation; the one exception is
`assign_user2team` after a successful removal call, where the failing addition
call leaves the cache changed in exactly the user's `team_id`, which has been
reset to null. -/
theorem claim_C1_error_leaves_cache (c : CtfdConnector) (w : World) :
    (∀ u a r rest, alookup w.cache.users u = none → w.pending = r :: rest →
        ¬(r.status_code = 200 ∨ r.status_code = 201) →
        (create_user c u a w).1 = .error (.ctfd (badResponseMsg "post"
          (c.host ++ "/api/v1" ++ "/users") r.text)) ∧
        (create_user c u a w).2.cache = w.cache) ∧
    (∀ n r rest, alookup w.cache.teams n = none → w.pending = r :: rest →
        ¬(r.status_code = 200 ∨ r.status_code = 201) →
        (create_team c n w).1 = .error (.ctfd (badResponseMsg "post"
          (c.host ++ "/api/v1" ++ "/teams") r.text)) ∧
        (create_team c n w).2.cache = w.cache) ∧
    (∀ n v cat d st ty r rest, alookup w.cache.challenges n = none →
        w.pending = r :: rest →
        ¬(r.status_code = 200 ∨ r.status_code = 201) →
        (create_challenge c n v cat d st ty w).1 = .error (.ctfd (badResponseMsg "post"
          (c.host ++ "/api/v1" ++ "/challenges") r.text)) ∧
        (create_challenge c n v cat d st ty w).2.cache = w.cache) ∧
    (∀ ch fl fv dv ty ech r rest, alookup w.cache.challenges ch = some ech →
        alookup w.cache.flags fl = none → w.pending = r :: rest →
        ¬(r.status_code = 200 ∨ r.status_code = 201) →
        (create_flag c ch fl fv dv ty w).1 = .error (.ctfd (badResponseMsg "post"
          (c.host ++ "/api/v1" ++ "/flags") r.text)) ∧
        (create_flag c ch fl fv dv ty w).2.cache = w.cache) ∧
    (∀ n fv dv ty e r rest, alookup w.cache.flags n = some e → w.pending = r :: rest →
        ¬(r.status_code = 200 ∨ r.status_code = 201) →
        (update_flag c n fv dv ty w).1 = .error (.ctfd (badResponseMsg "patch"
          (c.host ++ "/api/v1" ++ ("/flags/" ++ toString e.id)) r.text)) ∧
        (update_flag c n fv dv ty w).2.cache = w.cache) ∧
    (∀ n e r rest, alookup w.cache.users n = some e → w.pending = r :: rest →
        ¬(r.status_code = 200 ∨ r.status_code = 201) →
        (delete_user c n w).1 = .error (.ctfd (badResponseMsg "delete"
          (c.host ++ "/api/v1" ++ ("/users/" ++ toString e.id)) r.text)) ∧
        (delete_user c n w).2.cache = w.cache) ∧
    (∀ n e r rest, alookup w.cache.teams n = some e → w.pending = r :: rest →
        ¬(r.status_code = 200 ∨ r.status_code = 201) →
        (delete_team c n w).1 = .error (.ctfd (badResponseMsg "delete"
          (c.host ++ "/api/v1" ++ ("/teams/" ++ toString e.id)) r.text)) ∧
        (delete_team c n w).2.cache = w.cache) ∧
    (∀ n e r rest, alookup w.cache.challenges n = some e → w.pending = r :: rest →
        ¬(r.status_code = 200 ∨ r.status_code = 201) →
        (delete_challenge c n w).1 = .error (.ctfd (badResponseMsg "delete"
          (c.host ++ "/api/v1" ++ ("/challenges/" ++ toString e.id)) r.text)) ∧
        (delete_challenge c n w).2.cache = w.cache) ∧
    (∀ n e r rest, alookup w.cache.flags n = some e → w.pending = r :: rest →
        ¬(r.status_code = 200 ∨ r.status_code = 201) →
        (delete_flag c n w).1 = .error (.ctfd (badResponseMsg "delete"
          (c.host ++ "/api/v1" ++ ("/flags/" ++ toString e.id)) r.text)) ∧
        (delete_flag c n w).2.cache = w.cache) ∧
    (∀ u t eu et r rest, alookup w.cache.users u = some eu →
        alookup w.cache.teams t = some et → eu.team_id = none →
        w.pending = r :: rest →
        ¬(r.status_code = 200 ∨ r.status_code = 201) →
        (assign_user2team c u t w).1 = .error (.ctfd (badResponseMsg "post"
          (c.host ++ "/api/v1" ++ ("/teams/" ++ toString et.id ++ "/members")) r.text)) ∧
        (assign_user2team c u t w).2.cache = w.cache) ∧
    (∀ u t eu et ta r rest, alookup w.cache.users u = some eu →
        alookup w.cache.teams t = some et → eu.team_id = some ta → ta ≠ et.id →
        w.pending = r :: rest →
        ¬(r.status_code = 200 ∨ r.status_code = 201) →
        (assign_user2team c u t w).1 = .error (.ctfd (badResponseMsg "delete"
          (c.host ++ "/api/v1" ++ ("teams/" ++ toString ta ++ "/members")) r.text)) ∧
        (assign_user2team c u t w).2.cache = w.cache) ∧
    (∀ u t eu et ta r1 r2 rest, alookup w.cache.users u = some eu →
        alookup w.cache.teams t = some et → eu.team_id = some ta → ta ≠ et.id →
        w.pending = r1 :: r2 :: rest →
        (r1.status_code = 200 ∨ r1.status_code = 201) →
        ¬(r2.status_code = 200 ∨ r2.status_code = 201) →
        (assign_user2team c u t w).1 = .error (.ctfd (badResponseMsg "post"
          (c.host ++ "/api/v1" ++ ("/teams/" ++ toString et.id ++ "/members")) r2.text)) ∧
        alookup (assign_user2team c u t w).2.cache.users u =
          some { eu with team_id := none } ∧
        (∀ m, m ≠ u → alookup (assign_user2team c u t w).2.cache.users m =
          alookup w.cache.users m) ∧
        (assign_user2team c u t w).2.cache.teams = w.cache.teams ∧
        (assign_user2team c u t w).2.cache.challenges = w.cache.challenges ∧
        (assign_user2team c u t w).2.cache.flags = w.cache.flags) := by
  refine ⟨?_, ?_, ?_, ?_, ?_, ?_, ?_, ?_, ?_, ?_, ?_, ?_⟩
  · intro u a r rest habs hp hs
    have hb := fun b => assign_host_bad c "post" "POST" "/users" b w r rest hp hs
    simp only [create_user, create_user_request, exist_in_field, Cache.coll, habs,
      Option.isSome_none, Bool.false_eq_true, if_false, CtfdConnector.post]
    rw [hb]
    simp
  · intro n r rest habs hp hs
    have hb := fun b => assign_host_bad c "post" "POST" "/teams" b w r rest hp hs
    simp only [create_team, create_team_request, exist_in_field, Cache.coll, habs,
      Option.isSome_none, Bool.false_eq_true, if_false, CtfdConnector.post]
    rw [hb]
    simp
  · intro n v cat d st ty r rest habs hp hs
    have hb := fun b => assign_host_bad c "post" "POST" "/challenges" b w r rest hp hs
    simp only [create_challenge, create_challenge_request, exist_in_field, Cache.coll,
      habs, Option.isSome_none, Bool.false_eq_true, if_false, CtfdConnector.post]
    rw [hb]
    simp
  · intro ch fl fv dv ty ech r rest hch habs hp hs
    have hb := fun b => assign_host_bad c "post" "POST" "/flags" b w r rest hp hs
    simp only [create_flag, create_flag_request, get_field_from_storage, Cache.coll, hch,
      exist_in_field, habs, Option.isSome_none, Bool.false_eq_true, if_false,
      CtfdConnector.post]
    rw [hb]
    simp
  · intro n fv dv ty e r rest hex hp hs
    have hb := fun b => assign_host_bad c "patch" "PATCH"
      ("/flags/" ++ toString e.id) b w r rest hp hs
    simp only [update_flag, update_flag_request, get_field_from_storage, Cache.coll, hex,
      CtfdConnector.patch]
    rw [hb]
    simp
  · intro n e r rest hex hp hs
    have hb := fun b => assign_host_bad c "delete" "DELETE"
      ("/users/" ++ toString e.id) b w r rest hp hs
    simp only [delete_user, get_field_from_storage, Cache.coll, hex, CtfdConnector.delete]
    rw [hb]
    simp
  · intro n e r rest hex hp hs
    have hb := fun b => assign_host_bad c "delete" "DELETE"
      ("/teams/" ++ toString e.id) b w r rest hp hs
    simp only [delete_team, get_field_from_storage, Cache.coll, hex, CtfdConnector.delete]
    rw [hb]
    simp
  · intro n e r rest hex hp hs
    have hb := fun b => assign_host_bad c "delete" "DELETE"
      ("/challenges/" ++ toString e.id) b w r rest hp hs
    simp only [delete_challenge, get_field_from_storage, Cache.coll, hex,
      CtfdConnector.delete]
    rw [hb]
    simp
  · intro n e r rest hex hp hs
    have hb := fun b => assign_host_bad c "delete" "DELETE"
      ("/flags/" ++ toString e.id) b w r rest hp hs
    simp only [delete_flag, delete_flag_request, get_field_from_storage, Cache.coll, hex,
      CtfdConnector.delete]
    rw [hb]
    simp
  · intro u t eu et r rest hu ht htan hp hs
    have hb := fun b => assign_host_bad c "post" "POST"
      ("/teams/" ++ toString et.id ++ "/members") b w r rest hp hs
    simp only [assign_user2team, get_field_from_storage, Cache.coll, hu, ht, htan,
      reduceCtorEq, if_false, ne_eq, not_true_eq_false, if_true, CtfdConnector.post]
    rw [hb]
    simp
  · intro u t eu et ta r rest hu ht hta hne hp hs
    have hrm := remove_user_from_team_bad c u w eu ta r rest hu hta hp hs
    simp only [assign_user2team, get_field_from_storage, Cache.coll, hu, ht, hta,
      Option.some.injEq, hne, if_false, ne_eq, reduceCtorEq, not_false_eq_true, if_true]
    rcases hres : remove_user_from_team c u w with ⟨res, w3⟩
    rw [hres] at hrm
    rcases res with e3 | u3
    · simpa [hres] using hrm
    · simp at hrm
  · intro u t eu et ta r1 r2 rest hu ht hta hne hp hs1 hs2
    obtain ⟨l1, hset1, hl1, hoth1⟩ := setTeamId_of_alookup w.cache.users u none eu hu
    have hrm := remove_user_from_team_ok c u w eu ta l1 r1 (r2 :: rest) hu hta hset1 hp hs1
    have hb2 := fun b => assign_host_bad c "post" "POST"
      ("/teams/" ++ toString et.id ++ "/members") b
      { cache := w.cache.setColl Kind.users l1,
        pending := r2 :: rest,
        sent := w.sent ++
          [{ verb := "DELETE",
             url := c.host ++ "/api/v1" ++ ("teams/" ++ toString ta ++ "/members"),
             headers := [("Content-Type", "application/json"),
                         ("Authorization", "Token " ++ c.admin_token)],
             body := some (.jobj [("user_id", .jint eu.id)]) }],
        warnings := w.warnings,
        infos := w.infos } r2 rest rfl hs2
    simp only [assign_user2team, get_field_from_storage, Cache.coll, hu, ht, hta,
      Option.some.injEq, hne, if_false, ne_eq, reduceCtorEq, not_false_eq_true, if_true,
      CtfdConnector.post]
    rw [hrm]
    simp only []
    rw [hb2]
    refine ⟨rfl, ?_, ?_, ?_, ?_, ?_⟩
    · simpa [Cache.setColl] using hl1
    · intro m hm
      simpa [Cache.setColl] using hoth1 m hm
    · simp [Cache.setColl]
    · simp [Cache.setColl]
    · simp [Cache.setColl]

/-- Witness for C1 at concrete inputs: a failing create (`create_team`), a
failing first call of `assign_user2team` (the removal), and the admitted
partial case (successful removal, failing addition). -/
theorem claim_C1_error_leaves_cache_witness :
    ((create_team exConnector "red" (exEmptyWorld [exBad])).1 =
        .error (.ctfd (badResponseMsg "post"
          (exConnector.host ++ "/api/v1" ++ "/teams") exBad.text)) ∧
      (create_team exConnector "red" (exEmptyWorld [exBad])).2.cache =
        (exEmptyWorld [exBad]).cache) ∧
    ((assign_user2team exConnector "u" "B" (exWorld [exBad])).1 =
        .error (.ctfd (badResponseMsg "delete"
          (exConnector.host ++ "/api/v1" ++ ("teams/" ++ toString (1 : Int) ++ "/members"))
          exBad.text)) ∧
      (assign_user2team exConnector "u" "B" (exWorld [exBad])).2.cache =
        (exWorld [exBad]).cache) ∧
    ((assign_user2team exConnector "u" "B" (exWorld [exOk, exBad])).1 =
        .error (.ctfd (badResponseMsg "post"
          (exConnector.host ++ "/api/v1" ++ ("/teams/" ++ toString (2 : Int) ++ "/members"))
          exBad.text)) ∧
      alookup (assign_user2team exConnector "u" "B" (exWorld [exOk, exBad])).2.cache.users
          "u" = some { id := 7, team_id := none }) := by
  refine ⟨?_, ?_, ?_⟩
  · exact (claim_C1_error_leaves_cache exConnector (exEmptyWorld [exBad])).2.1 "red"
      exBad [] rfl rfl (by decide)
  · exact (claim_C1_error_leaves_cache exConnector (exWorld [exBad])).2.2.2.2.2.2.2.2.2.2.1
      "u" "B" { id := 7, team_id := some 1 } { id := 2 } 1 exBad [] rfl (by decide) rfl
      (by decide) rfl (by decide)
  · have h := (claim_C1_error_leaves_cache exConnector
      (exWorld [exOk, exBad])).2.2.2.2.2.2.2.2.2.2.2
      "u" "B" { id := 7, team_id := some 1 } { id := 2 } 1 exOk exBad [] rfl (by decide)
      rfl (by decide) rfl (Or.inl rfl) (by decide)
    exact ⟨h.1, h.2.1⟩

/-! ### Claim C4 -/

/-- Success/failure classification of an operation's outcome. -/
def isOkE : Except Err Unit → Bool
  | .ok _ => true
  | .error _ => false

/-- Agreement of a blocking and a non-blocking run: same success/failure
classification, same final cache, same issued requests (verb, URL, headers
and body), same remaining oracle, same info log.  (The warning log may
differ: its messages embed the wrapped function's name, `post` vs `apost`.) -/
def SyncAsyncAgree (x y : Except Err Unit × World) : Prop :=
  isOkE x.1 = isOkE y.1 ∧ x.2.cache = y.2.cache ∧ x.2.sent = y.2.sent ∧
  x.2.pending = y.2.pending ∧ x.2.infos = y.2.infos

theorem agree_rfl (x : Except Err Unit × World) : SyncAsyncAgree x x :=
  ⟨rfl, rfl, rfl, rfl, rfl⟩

/-- A sync dispatch and an async dispatch of the same verb, path and body
from the same world either both succeed with identical results, or both fail
with worlds that agree on cache, pending, sent and infos. -/
theorem dispatch_pair (c : CtfdConnector) (fn1 fn2 v p : String) (b : Option JVal)
    (w : World) :
    (∃ r w1, assign_host c fn1 v p b w = (.ok r, w1) ∧
             aassign_host c fn2 v p b w = (.ok r, w1)) ∨
    (∃ e1 e2 w1 w2, assign_host c fn1 v p b w = (.error e1, w1) ∧
             aassign_host c fn2 v p b w = (.error e2, w2) ∧
             w1.cache = w2.cache ∧ w1.sent = w2.sent ∧ w1.pending = w2.pending ∧
             w1.infos = w2.infos) := by
  rw [aassign_host_eq_assign_host]
  rcases hp : w.pending with _ | ⟨r, rest⟩
  · exact Or.inr ⟨.transport, .transport, w, w, assign_host_empty c fn1 v p b w hp,
      assign_host_empty c fn2 v p b w hp, rfl, rfl, rfl, rfl⟩
  · by_cases hs : r.status_code = 200 ∨ r.status_code = 201
    · exact Or.inl ⟨r, _, assign_host_ok c fn1 v p b w r rest hp hs,
        assign_host_ok c fn2 v p b w r rest hp hs⟩
    · exact Or.inr ⟨_, _, _, _, assign_host_bad c fn1 v p b w r rest hp hs,
        assign_host_bad c fn2 v p b w r rest hp hs, rfl, rfl, rfl, rfl⟩

/-- `remove_user_from_team` and `aremove_user_from_team` either both succeed
with identical results or both fail with agreeing worlds. -/
theorem remove_pair (c : CtfdConnector) (u : String) (w : World) :
    (∃ v w1, remove_user_from_team c u w = (.ok v, w1) ∧
             aremove_user_from_team c u w = (.ok v, w1)) ∨
    (∃ e1 e2 w1 w2, remove_user_from_team c u w = (.error e1, w1) ∧
             aremove_user_from_team c u w = (.error e2, w2) ∧
             w1.cache = w2.cache ∧ w1.sent = w2.sent ∧ w1.pending = w2.pending ∧
             w1.infos = w2.infos) := by
  rcases hreq : remove_user_from_team_request u w with ⟨res, w1⟩
  rcases res with e | o
  · exact Or.inr ⟨e, e, w1, w1,
      by simp only [remove_user_from_team, hreq],
      by simp only [aremove_user_from_team, hreq], rfl, rfl, rfl, rfl⟩
  · rcases o with _ | ⟨path, body⟩
    · exact Or.inl ⟨(), w1,
        by simp only [remove_user_from_team, hreq],
        by simp only [aremove_user_from_team, hreq]⟩
    · rcases dispatch_pair c "delete" "adelete" "DELETE" path (some body) w1 with
        ⟨r, w2, hsy, hasy⟩ | ⟨e1, e2, w2, w2a, hsy, hasy, hc, hsent, hpend, hinf⟩
      · rcases hcore : remove_user_from_team_core u w2 with ⟨resc, w3⟩
        rcases resc with e | v
        · exact Or.inr ⟨e, e, w3, w3,
            by simp only [remove_user_from_team, hreq, CtfdConnector.delete, hsy, hcore],
            by simp only [aremove_user_from_team, hreq, CtfdConnector.adelete, hasy, hcore],
            rfl, rfl, rfl, rfl⟩
        · exact Or.inl ⟨v, w3,
            by simp only [remove_user_from_team, hreq, CtfdConnector.delete, hsy, hcore],
            by simp only [aremove_user_from_team, hreq, CtfdConnector.adelete, hasy, hcore]⟩
      · exact Or.inr ⟨e1, e2, w2, w2a,
          by simp only [remove_user_from_team, hreq, CtfdConnector.delete, hsy],
          by simp only [aremove_user_from_team, hreq, CtfdConnector.adelete, hasy],
          hc, hsent, hpend, hinf⟩

/-- C4: for every façade operation, identical inputs, identical initial state
and identical oracle responses, the blocking and non-blocking variants issue
the same requests (verb, URL, headers, body), classify success and failure
identically, and leave the cache (and remaining oracle and info log) in the
same state. -/
theorem claim_C4_sync_async_agree (c : CtfdConnector) (op : Op) (w : World) :
    SyncAsyncAgree (runSync c op w) (runAsync c op w) := by
  cases op with
  | createUser u a =>
      simp only [runSync, runAsync, create_user, acreate_user]
      rcases hreq : create_user_request u a w with ⟨res, w1⟩
      rcases res with e | ⟨path, body⟩
      · simp only [hreq]; exact agree_rfl _
      · rcases dispatch_pair c "post" "apost" "POST" path (some body) w1 with
          ⟨r, w2, hsy, hasy⟩ | ⟨e1, e2, w2, w2a, hsy, hasy, hc, hsent, hpend, hinf⟩
        · simp only [hreq, CtfdConnector.post, CtfdConnector.apost, hsy, hasy]
          exact agree_rfl _
        · simp only [hreq, CtfdConnector.post, CtfdConnector.apost, hsy, hasy]
          exact ⟨rfl, hc, hsent, hpend, hinf⟩
  | createTeam n =>
      simp only [runSync, runAsync, create_team, acreate_team]
      rcases hreq : create_team_request n w with ⟨res, w1⟩
      rcases res with e | ⟨path, body⟩
      · simp only [hreq]; exact agree_rfl _
      · rcases dispatch_pair c "post" "apost" "POST" path (some body) w1 with
          ⟨r, w2, hsy, hasy⟩ | ⟨e1, e2, w2, w2a, hsy, hasy, hc, hsent, hpend, hinf⟩
        · simp only [hreq, CtfdConnector.post, CtfdConnector.apost, hsy, hasy]
          exact agree_rfl _
        · simp only [hreq, CtfdConnector.post, CtfdConnector.apost, hsy, hasy]
          exact ⟨rfl, hc, hsent, hpend, hinf⟩
  | createChallenge n v cat d st ty =>
      simp only [runSync, runAsync, create_challenge, acreate_challenge]
      rcases hreq : create_challenge_request n v cat d st ty w with ⟨res, w1⟩
      rcases res with e | ⟨path, body⟩
      · simp only [hreq]; exact agree_rfl _
      · rcases dispatch_pair c "post" "apost" "POST" path (some body) w1 with
          ⟨r, w2, hsy, hasy⟩ | ⟨e1, e2, w2, w2a, hsy, hasy, hc, hsent, hpend, hinf⟩
        · simp only [hreq, CtfdConnector.post, CtfdConnector.apost, hsy, hasy]
          exact agree_rfl _
        · simp only [hreq, CtfdConnector.post, CtfdConnector.apost, hsy, hasy]
          exact ⟨rfl, hc, hsent, hpend, hinf⟩
  | createFlag ch fl fv dv ty =>
      simp only [runSync, runAsync, create_flag, acreate_flag]
      rcases hreq : create_flag_request ch fl fv dv ty w with ⟨res, w1⟩
      rcases res with e | ⟨path, body⟩
      · simp only [hreq]; exact agree_rfl _
      · rcases dispatch_pair c "post" "apost" "POST" path (some body) w1 with
          ⟨r, w2, hsy, hasy⟩ | ⟨e1, e2, w2, w2a, hsy, hasy, hc, hsent, hpend, hinf⟩
        · simp only [hreq, CtfdConnector.post, CtfdConnector.apost, hsy, hasy]
          exact agree_rfl _
        · simp only [hreq, CtfdConnector.post, CtfdConnector.apost, hsy, hasy]
          exact ⟨rfl, hc, hsent, hpend, hinf⟩
  | assignUser2Team u t =>
      simp only [runSync, runAsync, assign_user2team, aassign_user2team]
      rcases hu : get_field_from_storage .users u w with ⟨resu, w1⟩
      rcases resu with e | eu
      · simp only [hu]; exact agree_rfl _
      · rcases ht : get_field_from_storage .teams t w1 with ⟨rest1, w2⟩
        rcases rest1 with e | et
        · simp only [hu, ht]; exact agree_rfl _
        · by_cases heq : eu.team_id = some et.id
          · simp only [hu, ht, if_pos heq]; exact agree_rfl _
          · by_cases hnone : eu.team_id = none
            · rcases dispatch_pair c "post" "apost" "POST"
                  ("/teams/" ++ toString et.id ++ "/members")
                  (some (.jobj [("user_id", .jint eu.id)])) w2 with
                ⟨r, w3, hsy, hasy⟩ | ⟨e1, e2, w3, w3a, hsy, hasy, hc, hsent, hpend, hinf⟩
              · simp only [hu, ht, if_neg heq, if_neg (not_not_intro hnone),
                  CtfdConnector.post, CtfdConnector.apost, hsy, hasy]
                exact agree_rfl _
              · simp only [hu, ht, if_neg heq, if_neg (not_not_intro hnone),
                  CtfdConnector.post, CtfdConnector.apost, hsy, hasy]
                exact ⟨rfl, hc, hsent, hpend, hinf⟩
            · rcases remove_pair c u w2 with
                ⟨v, w3, hrsy, hrasy⟩ | ⟨e1, e2, w3, w3a, hrsy, hrasy, hc, hsent, hpend, hinf⟩
              · rcases dispatch_pair c "post" "apost" "POST"
                    ("/teams/" ++ toString et.id ++ "/members")
                    (some (.jobj [("user_id", .jint eu.id)])) w3 with
                  ⟨r, w4, hsy, hasy⟩ | ⟨e1, e2, w4, w4a, hsy, hasy, hc, hsent, hpend, hinf⟩
                · simp only [hu, ht, if_neg heq, if_pos hnone, hrsy, hrasy,
                    CtfdConnector.post, CtfdConnector.apost, hsy, hasy]
                  exact agree_rfl _
                · simp only [hu, ht, if_neg heq, if_pos hnone, hrsy, hrasy,
                    CtfdConnector.post, CtfdConnector.apost, hsy, hasy]
                  exact ⟨rfl, hc, hsent, hpend, hinf⟩
              · simp only [hu, ht, if_neg heq, if_pos hnone, hrsy, hrasy]
                exact ⟨rfl, hc, hsent, hpend, hinf⟩
  | removeUserFromTeam u =>
      simp only [runSync, runAsync]
      rcases remove_pair c u w with
        ⟨v, w1, hsy, hasy⟩ | ⟨e1, e2, w1, w2, hsy, hasy, hc, hsent, hpend, hinf⟩
      · simp only [hsy, hasy]; exact agree_rfl _
      · simp only [hsy, hasy]; exact ⟨rfl, hc, hsent, hpend, hinf⟩
  | updateFlag n fv dv ty =>
      simp only [runSync, runAsync, update_flag, aupdate_flag]
      rcases hreq : update_flag_request n fv dv ty w with ⟨res, w1⟩
      rcases res with e | ⟨path, body⟩
      · simp only [hreq]; exact agree_rfl _
      · rcases dispatch_pair c "patch" "apatch" "PATCH" path (some body) w1 with
          ⟨r, w2, hsy, hasy⟩ | ⟨e1, e2, w2, w2a, hsy, hasy, hc, hsent, hpend, hinf⟩
        · simp only [hreq, CtfdConnector.patch, CtfdConnector.apatch, hsy, hasy]
          exact agree_rfl _
        · simp only [hreq, CtfdConnector.patch, CtfdConnector.apatch, hsy, hasy]
          exact ⟨rfl, hc, hsent, hpend, hinf⟩
  | deleteUser n =>
      simp only [runSync, runAsync, delete_user, adelete_user]
      rcases hg : get_field_from_storage .users n w with ⟨res, w1⟩
      rcases res with e | eu
      · simp only [hg]; exact agree_rfl _
      · rcases dispatch_pair c "delete" "adelete" "DELETE"
            ("/users/" ++ toString eu.id) none w1 with
          ⟨r, w2, hsy, hasy⟩ | ⟨e1, e2, w2, w2a, hsy, hasy, hc, hsent, hpend, hinf⟩
        · simp only [hg, CtfdConnector.delete, CtfdConnector.adelete, hsy, hasy]
          exact agree_rfl _
        · simp only [hg, CtfdConnector.delete, CtfdConnector.adelete, hsy, hasy]
          exact ⟨rfl, hc, hsent, hpend, hinf⟩
  | deleteTeam n =>
      simp only [runSync, runAsync, delete_team, adelete_team]
      rcases hg : get_field_from_storage .teams n w with ⟨res, w1⟩
      rcases res with e | eu
      · simp only [hg]; exact agree_rfl _
      · rcases dispatch_pair c "delete" "adelete" "DELETE"
            ("/teams/" ++ toString eu.id) none w1 with
          ⟨r, w2, hsy, hasy⟩ | ⟨e1, e2, w2, w2a, hsy, hasy, hc, hsent, hpend, hinf⟩
        · simp only [hg, CtfdConnector.delete, CtfdConnector.adelete, hsy, hasy]
          exact agree_rfl _
        · simp only [hg, CtfdConnector.delete, CtfdConnector.adelete, hsy, hasy]
          exact ⟨rfl, hc, hsent, hpend, hinf⟩
  | deleteChallenge n =>
      simp only [runSync, runAsync, delete_challenge, adelete_challenge]
      rcases hg : get_field_from_storage .challenges n w with ⟨res, w1⟩
      rcases res with e | eu
      · simp only [hg]; exact agree_rfl _
      · rcases dispatch_pair c "delete" "adelete" "DELETE"
            ("/challenges/" ++ toString eu.id) none w1 with
          ⟨r, w2, hsy, hasy⟩ | ⟨e1, e2, w2, w2a, hsy, hasy, hc, hsent, hpend, hinf⟩
        · simp only [hg, CtfdConnector.delete, CtfdConnector.adelete, hsy, hasy]
          exact agree_rfl _
        · simp only [hg, CtfdConnector.delete, CtfdConnector.adelete, hsy, hasy]
          exact ⟨rfl, hc, hsent, hpend, hinf⟩
  | deleteFlag n =>
      simp only [runSync, runAsync, delete_flag, adelete_flag]
      rcases hreq : delete_flag_request n w with ⟨res, w1⟩
      rcases res with e | path
      · simp only [hreq]; exact agree_rfl _
      · rcases dispatch_pair c "delete" "adelete" "DELETE" path none w1 with
          ⟨r, w2, hsy, hasy⟩ | ⟨e1, e2, w2, w2a, hsy, hasy, hc, hsent, hpend, hinf⟩
        · simp only [hreq, CtfdConnector.delete, CtfdConnector.adelete, hsy, hasy]
          exact agree_rfl _
        · simp only [hreq, CtfdConnector.delete, CtfdConnector.adelete, hsy, hasy]
          exact ⟨rfl, hc, hsent, hpend, hinf⟩

/-! ### Claim C9 -/

theorem alookup_setTeamId_ne (l l2 : List (String × Entry)) (n m : String)
    (t : Option Int) (h : setTeamId l n t = some l2) (hne : n ≠ m) :
    alookup l2 m = alookup l m := by
  induction l generalizing l2 with
  | nil => simp [setTeamId] at h
  | cons kv rest ih =>
      obtain ⟨k, v⟩ := kv
      by_cases hk : k = n
      · subst hk
        simp only [setTeamId, eq_self_iff_true, if_true, Option.some.injEq] at h
        subst h
        simp [alookup, hne]
      · simp only [setTeamId, if_neg hk] at h
        rcases hrec : setTeamId rest n t with _ | l3
        · rw [hrec] at h; simp at h
        · rw [hrec] at h
          simp only [Option.some.injEq] at h
          subst h
          simp [alookup, ih l3 hrec]

theorem alookup_setTeamId_self (l l2 : List (String × Entry)) (n : String)
    (t : Option Int) (h : setTeamId l n t = some l2) :
    ∃ e, alookup l n = some e ∧ alookup l2 n = some { e with team_id := t } := by
  induction l generalizing l2 with
  | nil => simp [setTeamId] at h
  | cons kv rest ih =>
      obtain ⟨k, v⟩ := kv
      by_cases hk : k = n
      · subst hk
        simp only [setTeamId, eq_self_iff_true, if_true, Option.some.injEq] at h
        subst h
        exact ⟨v, by simp [alookup], by simp [alookup]⟩
      · simp only [setTeamId, if_neg hk] at h
        rcases hrec : setTeamId rest n t with _ | l3
        · rw [hrec] at h; simp at h
        · rw [hrec] at h
          simp only [Option.some.injEq] at h
          subst h
          obtain ⟨e, h1, h2⟩ := ih l3 hrec
          exact ⟨e, by simp [alookup, hk, h1], by simp [alookup, hk, h2]⟩


theorem get_field_cache (k : Kind) (n : String) (w : World) :
    (get_field_from_storage k n w).2.cache = w.cache := by
  simp only [get_field_from_storage]
  split <;> rfl

theorem create_user_request_cache (u : String) (a : Bool) (w : World) :
    (create_user_request u a w).2.cache = w.cache := by
  simp only [create_user_request]
  split <;> rfl

theorem create_team_request_cache (n : String) (w : World) :
    (create_team_request n w).2.cache = w.cache := by
  simp only [create_team_request]
  split <;> rfl

theorem create_challenge_request_cache (n : String) (v : Int)
    (cat d st ty : String) (w : World) :
    (create_challenge_request n v cat d st ty w).2.cache = w.cache := by
  simp only [create_challenge_request]
  split <;> rfl

theorem create_flag_request_cache (ch fl fv dv ty : String) (w : World) :
    (create_flag_request ch fl fv dv ty w).2.cache = w.cache := by
  simp only [create_flag_request]
  rcases hg : get_field_from_storage .challenges ch w with ⟨res, w1⟩
  have h1 : w1.cache = w.cache := by
    have h := get_field_cache .challenges ch w
    rw [hg] at h; exact h
  rcases res with e | e
  · simp [hg, h1]
  · simp only [hg]
    split <;> simp [h1]

theorem update_flag_request_cache (n fv dv tv : String) (w : World) :
    (update_flag_request n fv dv tv w).2.cache = w.cache := by
  simp only [update_flag_request]
  rcases hg : get_field_from_storage .flags n w with ⟨res, w1⟩
  have h1 : w1.cache = w.cache := by
    have h := get_field_cache .flags n w
    rw [hg] at h; exact h
  rcases res with e | e <;> simp [hg, h1]

theorem delete_flag_request_cache (n : String) (w : World) :
    (delete_flag_request n w).2.cache = w.cache := by
  simp only [delete_flag_request]
  rcases hg : get_field_from_storage .flags n w with ⟨res, w1⟩
  have h1 : w1.cache = w.cache := by
    have h := get_field_cache .flags n w
    rw [hg] at h; exact h
  rcases res with e | e <;> simp [hg, h1]

theorem remove_request_cache (u : String) (w : World) :
    (remove_user_from_team_request u w).2.cache = w.cache := by
  simp only [remove_user_from_team_request]
  rcases hg : get_field_from_storage .users u w with ⟨res, w1⟩
  have h1 : w1.cache = w.cache := by
    have h := get_field_cache .users u w
    rw [hg] at h; exact h
  rcases res with e | e
  · simp [hg, h1]
  · rcases hteam : e.team_id with _ | ta <;> simp [hg, hteam, h1]

theorem create_team_users_eq (c : CtfdConnector) (n : String) (w : World) :
    (create_team c n w).2.cache.users = w.cache.users := by
  rcases hreq : create_team_request n w with ⟨res, w1⟩
  have h1 : w1.cache = w.cache := by
    have h := create_team_request_cache n w
    rw [hreq] at h; exact h
  rcases res with e | ⟨path, body⟩
  · simp [create_team, hreq, h1]
  · rcases hd : assign_host c "post" "POST" path (some body) w1 with ⟨resd, w2⟩
    have h2 : w2.cache = w1.cache := by
      have h := assign_host_cache c "post" "POST" path (some body) w1
      rw [hd] at h; exact h
    rcases resd with e | r
    · simp [create_team, hreq, CtfdConnector.post, hd, h2, h1]
    · simp only [create_team, hreq, CtfdConnector.post, hd, create_team_core,
        update_storage_field_from_response]
      rcases hid : responseDataId r with _ | i
      · simp [hid, h2, h1]
      · simp [hid, h2, h1, Cache.setColl, Cache.coll]

theorem create_challenge_users_eq (c : CtfdConnector) (n : String) (v : Int)
    (cat d st ty : String) (w : World) :
    (create_challenge c n v cat d st ty w).2.cache.users = w.cache.users := by
  rcases hreq : create_challenge_request n v cat d st ty w with ⟨res, w1⟩
  have h1 : w1.cache = w.cache := by
    have h := create_challenge_request_cache n v cat d st ty w
    rw [hreq] at h; exact h
  rcases res with e | ⟨path, body⟩
  · simp [create_challenge, hreq, h1]
  · rcases hd : assign_host c "post" "POST" path (some body) w1 with ⟨resd, w2⟩
    have h2 : w2.cache = w1.cache := by
      have h := assign_host_cache c "post" "POST" path (some body) w1
      rw [hd] at h; exact h
    rcases resd with e | r
    · simp [create_challenge, hreq, CtfdConnector.post, hd, h2, h1]
    · simp only [create_challenge, hreq, CtfdConnector.post, hd, create_challenge_core,
        update_storage_field_from_response]
      rcases hid : responseDataId r with _ | i
      · simp [hid, h2, h1]
      · simp [hid, h2, h1, Cache.setColl, Cache.coll]

theorem create_flag_users_eq (c : CtfdConnector) (ch fl fv dv ty : String) (w : World) :
    (create_flag c ch fl fv dv ty w).2.cache.users = w.cache.users := by
  rcases hreq : create_flag_request ch fl fv dv ty w with ⟨res, w1⟩
  have h1 : w1.cache = w.cache := by
    have h := create_flag_request_cache ch fl fv dv ty w
    rw [hreq] at h; exact h
  rcases res with e | ⟨path, body⟩
  · simp [create_flag, hreq, h1]
  · rcases hd : assign_host c "post" "POST" path (some body) w1 with ⟨resd, w2⟩
    have h2 : w2.cache = w1.cache := by
      have h := assign_host_cache c "post" "POST" path (some body) w1
      rw [hd] at h; exact h
    rcases resd with e | r
    · simp [create_flag, hreq, CtfdConnector.post, hd, h2, h1]
    · simp only [create_flag, hreq, CtfdConnector.post, hd, create_flag_core,
        update_storage_field_from_response]
      rcases hid : responseDataId r with _ | i
      · simp [hid, h2, h1]
      · simp [hid, h2, h1, Cache.setColl, Cache.coll]

theorem update_flag_users_eq (c : CtfdConnector) (n fv dv tv : String) (w : World) :
    (update_flag c n fv dv tv w).2.cache.users = w.cache.users := by
  rcases hreq : update_flag_request n fv dv tv w with ⟨res, w1⟩
  have h1 : w1.cache = w.cache := by
    have h := update_flag_request_cache n fv dv tv w
    rw [hreq] at h; exact h
  rcases res with e | ⟨path, body⟩
  · simp [update_flag, hreq, h1]
  · rcases hd : assign_host c "patch" "PATCH" path (some body) w1 with ⟨resd, w2⟩
    have h2 : w2.cache = w1.cache := by
      have h := assign_host_cache c "patch" "PATCH" path (some body) w1
      rw [hd] at h; exact h
    rcases resd with e | r <;> simp [update_flag, hreq, CtfdConnector.patch, hd, h2, h1]

theorem delete_team_users_eq (c : CtfdConnector) (n : String) (w : World) :
    (delete_team c n w).2.cache.users = w.cache.users := by
  rcases hg : get_field_from_storage .teams n w with ⟨res, w1⟩
  have h1 : w1.cache = w.cache := by
    have h := get_field_cache .teams n w
    rw [hg] at h; exact h
  rcases res with e | e
  · simp [delete_team, hg, h1]
  · rcases hd : assign_host c "delete" "DELETE" ("/teams/" ++ toString e.id) none w1 with
      ⟨resd, w2⟩
    have h2 : w2.cache = w1.cache := by
      have h := assign_host_cache c "delete" "DELETE" ("/teams/" ++ toString e.id) none w1
      rw [hd] at h; exact h
    rcases resd with e2 | r <;>
      simp [delete_team, hg, CtfdConnector.delete, hd, h2, h1, delete_storage_field,
        Cache.setColl, Cache.coll]

theorem delete_challenge_users_eq (c : CtfdConnector) (n : String) (w : World) :
    (delete_challenge c n w).2.cache.users = w.cache.users := by
  rcases hg : get_field_from_storage .challenges n w with ⟨res, w1⟩
  have h1 : w1.cache = w.cache := by
    have h := get_field_cache .challenges n w
    rw [hg] at h; exact h
  rcases res with e | e
  · simp [delete_challenge, hg, h1]
  · rcases hd : assign_host c "delete" "DELETE" ("/challenges/" ++ toString e.id) none w1 with
      ⟨resd, w2⟩
    have h2 : w2.cache = w1.cache := by
      have h := assign_host_cache c "delete" "DELETE" ("/challenges/" ++ toString e.id) none w1
      rw [hd] at h; exact h
    rcases resd with e2 | r <;>
      simp [delete_challenge, hg, CtfdConnector.delete, hd, h2, h1, delete_storage_field,
        Cache.setColl, Cache.coll]

theorem delete_flag_users_eq (c : CtfdConnector) (n : String) (w : World) :
    (delete_flag c n w).2.cache.users = w.cache.users := by
  rcases hreq : delete_flag_request n w with ⟨res, w1⟩
  have h1 : w1.cache = w.cache := by
    have h := delete_flag_request_cache n w
    rw [hreq] at h; exact h
  rcases res with e | path
  · simp [delete_flag, hreq, h1]
  · rcases hd : assign_host c "delete" "DELETE" path none w1 with ⟨resd, w2⟩
    have h2 : w2.cache = w1.cache := by
      have h := assign_host_cache c "delete" "DELETE" path none w1
      rw [hd] at h; exact h
    rcases resd with e2 | r <;>
      simp [delete_flag, hreq, CtfdConnector.delete, hd, h2, h1, delete_storage_field,
        Cache.setColl, Cache.coll]

/-- The claimed invariant, stated over every cached pair for the user name:
each record stored under `u` has a null `team_id`. -/
def TeamIdNone (u : String) (w : World) : Prop :=
  ∀ p ∈ w.cache.users, p.1 = u → p.2.team_id = none

theorem mem_aset (l : List (String × Entry)) (n : String) (e : Entry)
    (p : String × Entry) (h : p ∈ aset l n e) : p = (n, e) ∨ p ∈ l := by
  induction l with
  | nil => simpa [aset] using h
  | cons kv rest ih =>
      obtain ⟨k, v⟩ := kv
      by_cases hk : k = n
      · subst hk
        simp only [aset, eq_self_iff_true, if_true, List.mem_cons] at h
        rcases h with h | h
        · exact Or.inl (by simpa using h)
        · exact Or.inr (List.mem_cons_of_mem _ h)
      · simp only [aset, if_neg hk, List.mem_cons] at h
        rcases h with h | h
        · exact Or.inr (by simp [h])
        · rcases ih h with h2 | h2
          · exact Or.inl h2
          · exact Or.inr (List.mem_cons_of_mem _ h2)

theorem mem_aerase (l : List (String × Entry)) (n : String)
    (p : String × Entry) (h : p ∈ aerase l n) : p ∈ l := by
  induction l with
  | nil => simp [aerase] at h
  | cons kv rest ih =>
      obtain ⟨k, v⟩ := kv
      by_cases hk : k = n
      · subst hk
        simp only [aerase, eq_self_iff_true, if_true] at h
        exact List.mem_cons_of_mem _ h
      · simp only [aerase, if_neg hk, List.mem_cons] at h
        rcases h with h | h
        · simp [h]
        · exact List.mem_cons_of_mem _ (ih h)

theorem mem_setTeamId (l l2 : List (String × Entry)) (n : String) (t : Option Int)
    (hset : setTeamId l n t = some l2) (p : String × Entry) (h : p ∈ l2) :
    p ∈ l ∨ (p.1 = n ∧ p.2.team_id = t) := by
  induction l generalizing l2 with
  | nil => simp [setTeamId] at hset
  | cons kv rest ih =>
      obtain ⟨k, v⟩ := kv
      by_cases hk : k = n
      · subst hk
        simp only [setTeamId, eq_self_iff_true, if_true, Option.some.injEq] at hset
        subst hset
        simp only [List.mem_cons] at h
        rcases h with h | h
        · exact Or.inr (by simp [h])
        · exact Or.inl (List.mem_cons_of_mem _ h)
      · simp only [setTeamId, if_neg hk] at hset
        rcases hrec : setTeamId rest n t with _ | l3
        · rw [hrec] at hset; simp at hset
        · rw [hrec] at hset
          simp only [Option.some.injEq] at hset
          subst hset
          simp only [List.mem_cons] at h
          rcases h with h | h
          · exact Or.inl (by simp [h])
          · rcases ih l3 hrec h with h2 | h2
            · exact Or.inl (List.mem_cons_of_mem _ h2)
            · exact Or.inr h2

theorem teamIdNone_cache_eq {u : String} {wa wb : World}
    (h : wb.cache = wa.cache) (hT : TeamIdNone u wa) : TeamIdNone u wb := by
  intro p hp
  rw [h] at hp
  exact hT p hp

theorem teamIdNone_users_eq {u : String} {wa wb : World}
    (h : wb.cache.users = wa.cache.users) (hT : TeamIdNone u wa) : TeamIdNone u wb := by
  intro p hp
  rw [h] at hp
  exact hT p hp

theorem create_user_preserves_teamIdNone (c : CtfdConnector) (v : String) (a : Bool)
    (w : World) (u : String) (hT : TeamIdNone u w) :
    TeamIdNone u (create_user c v a w).2 := by
  rcases hreq : create_user_request v a w with ⟨res, w1⟩
  have h1 : w1.cache = w.cache := by
    have h := create_user_request_cache v a w
    rw [hreq] at h; exact h
  rcases res with e | ⟨path, body⟩
  · intro p hp
    simp only [create_user, hreq, h1] at hp
    exact hT p hp
  · rcases hd : assign_host c "post" "POST" path (some body) w1 with ⟨resd, w2⟩
    have h2 : w2.cache = w1.cache := by
      have h := assign_host_cache c "post" "POST" path (some body) w1
      rw [hd] at h; exact h
    rcases resd with e | r
    · intro p hp
      simp only [create_user, hreq, CtfdConnector.post, hd, h2, h1] at hp
      exact hT p hp
    · rcases hid : responseDataId r with _ | i
      · intro p hp
        simp only [create_user, hreq, CtfdConnector.post, hd, create_user_core, hid,
          h2, h1] at hp
        exact hT p hp
      · intro p hp hpu
        simp only [create_user, hreq, CtfdConnector.post, hd, create_user_core, hid,
          Cache.setColl] at hp
        rcases mem_aset _ _ _ _ hp with h3 | h3
        · simp [h3]
        · rw [h2, h1] at h3
          exact hT p h3 hpu

theorem delete_user_preserves_teamIdNone (c : CtfdConnector) (v : String)
    (w : World) (u : String) (hT : TeamIdNone u w) :
    TeamIdNone u (delete_user c v w).2 := by
  rcases hg : get_field_from_storage .users v w with ⟨res, w1⟩
  have h1 : w1.cache = w.cache := by
    have h := get_field_cache .users v w
    rw [hg] at h; exact h
  rcases res with e | e
  · intro p hp
    simp only [delete_user, hg, h1] at hp
    exact hT p hp
  · rcases hd : assign_host c "delete" "DELETE" ("/users/" ++ toString e.id) none w1 with
      ⟨resd, w2⟩
    have h2 : w2.cache = w1.cache := by
      have h := assign_host_cache c "delete" "DELETE" ("/users/" ++ toString e.id) none w1
      rw [hd] at h; exact h
    rcases resd with e2 | r
    · intro p hp
      simp only [delete_user, hg, CtfdConnector.delete, hd, h2, h1] at hp
      exact hT p hp
    · intro p hp hpu
      simp only [delete_user, hg, CtfdConnector.delete, hd, delete_storage_field,
        Cache.setColl, Cache.coll] at hp
      have h3 := mem_aerase _ _ _ hp
      rw [h2, h1] at h3
      exact hT p h3 hpu

theorem remove_preserves_teamIdNone (c : CtfdConnector) (v : String)
    (w : World) (u : String) (hT : TeamIdNone u w) :
    TeamIdNone u (remove_user_from_team c v w).2 := by
  rcases hreq : remove_user_from_team_request v w with ⟨res, w1⟩
  have h1 : w1.cache = w.cache := by
    have h := remove_request_cache v w
    rw [hreq] at h; exact h
  rcases res with e | o
  · intro p hp
    simp only [remove_user_from_team, hreq, h1] at hp
    exact hT p hp
  · rcases o with _ | ⟨path, body⟩
    · intro p hp
      simp only [remove_user_from_team, hreq, h1] at hp
      exact hT p hp
    · rcases hd : assign_host c "delete" "DELETE" path (some body) w1 with ⟨resd, w2⟩
      have h2 : w2.cache = w1.cache := by
        have h := assign_host_cache c "delete" "DELETE" path (some body) w1
        rw [hd] at h; exact h
      rcases resd with e2 | r
      · intro p hp
        simp only [remove_user_from_team, hreq, CtfdConnector.delete, hd, h2, h1] at hp
        exact hT p hp
      · rcases hset : setTeamId w2.cache.users v none with _ | l
        · intro p hp
          simp only [remove_user_from_team, hreq, CtfdConnector.delete, hd,
            remove_user_from_team_core, hset] at hp
          rw [h2, h1] at hp
          exact hT p hp
        · intro p hp hpu
          simp only [remove_user_from_team, hreq, CtfdConnector.delete, hd,
            remove_user_from_team_core, hset, Cache.setColl] at hp
          rcases mem_setTeamId _ _ _ _ hset p hp with h3 | h3
          · rw [h2, h1] at h3
            exact hT p h3 hpu
          · exact h3.2

theorem assign_preserves_teamIdNone (c : CtfdConnector) (v t : String)
    (w : World) (u : String) (hvu : v ≠ u) (hT : TeamIdNone u w) :
    TeamIdNone u (assign_user2team c v t w).2 := by
  rcases hu : get_field_from_storage .users v w with ⟨resu, w1⟩
  have h1 : w1.cache = w.cache := by
    have h := get_field_cache .users v w
    rw [hu] at h; exact h
  rcases resu with e | eu
  · intro p hp
    simp only [assign_user2team, hu, h1] at hp
    exact hT p hp
  · rcases ht : get_field_from_storage .teams t w1 with ⟨rest1, w2⟩
    have h2 : w2.cache = w1.cache := by
      have h := get_field_cache .teams t w1
      rw [ht] at h; exact h
    rcases rest1 with e | et
    · intro p hp
      simp only [assign_user2team, hu, ht, h2, h1] at hp
      exact hT p hp
    · have hT2 : TeamIdNone u w2 := teamIdNone_cache_eq (h2.trans h1) hT
      by_cases heq : eu.team_id = some et.id
      · intro p hp
        simp only [assign_user2team, hu, ht, if_pos heq] at hp
        exact hT2 p hp
      · by_cases hnone : eu.team_id = none
        · rcases hd : assign_host c "post" "POST"
              ("/teams/" ++ toString et.id ++ "/members")
              (some (.jobj [("user_id", .jint eu.id)])) w2 with ⟨resd, w3⟩
          have h3 : w3.cache = w2.cache := by
            have h := assign_host_cache c "post" "POST"
              ("/teams/" ++ toString et.id ++ "/members")
              (some (.jobj [("user_id", .jint eu.id)])) w2
            rw [hd] at h; exact h
          rcases resd with e2 | r
          · intro p hp
            simp only [assign_user2team, hu, ht, if_neg heq,
              if_neg (not_not_intro hnone), CtfdConnector.post, hd, h3] at hp
            exact hT2 p hp
          · rcases hset : setTeamId w3.cache.users v (some et.id) with _ | l
            · intro p hp
              simp only [assign_user2team, hu, ht, if_neg heq,
                if_neg (not_not_intro hnone), CtfdConnector.post, hd, hset] at hp
              rw [h3] at hp
              exact hT2 p hp
            · intro p hp hpu
              simp only [assign_user2team, hu, ht, if_neg heq,
                if_neg (not_not_intro hnone), CtfdConnector.post, hd, hset,
                Cache.setColl] at hp
              rcases mem_setTeamId _ _ _ _ hset p hp with h4 | h4
              · rw [h3] at h4
                exact hT2 p h4 hpu
              · exact absurd (hpu ▸ h4.1) hvu.symm
        · rcases hrm : remove_user_from_team c v w2 with ⟨resr, w3⟩
          have hT3 : TeamIdNone u w3 := by
            have h := remove_preserves_teamIdNone c v w2 u hT2
            rw [hrm] at h; exact h
          rcases resr with e2 | v2
          · intro p hp
            simp only [assign_user2team, hu, ht, if_neg heq, if_pos hnone, hrm] at hp
            exact hT3 p hp
          · rcases hd : assign_host c "post" "POST"
                ("/teams/" ++ toString et.id ++ "/members")
                (some (.jobj [("user_id", .jint eu.id)])) w3 with ⟨resd, w4⟩
            have h4 : w4.cache = w3.cache := by
              have h := assign_host_cache c "post" "POST"
                ("/teams/" ++ toString et.id ++ "/members")
                (some (.jobj [("user_id", .jint eu.id)])) w3
              rw [hd] at h; exact h
            have hT4 : TeamIdNone u w4 := teamIdNone_cache_eq h4 hT3
            rcases resd with e3 | r
            · intro p hp
              simp only [assign_user2team, hu, ht, if_neg heq, if_pos hnone, hrm,
                CtfdConnector.post, hd] at hp
              exact hT4 p hp
            · rcases hset : setTeamId w4.cache.users v (some et.id) with _ | l
              · intro p hp
                simp only [assign_user2team, hu, ht, if_neg heq, if_pos hnone, hrm,
                  CtfdConnector.post, hd, hset] at hp
                exact hT4 p hp
              · intro p hp hpu
                simp only [assign_user2team, hu, ht, if_neg heq, if_pos hnone, hrm,
                  CtfdConnector.post, hd, hset, Cache.setColl] at hp
                rcases mem_setTeamId _ _ _ _ hset p hp with h5 | h5
                · exact hT4 p h5 hpu
                · exact absurd (hpu ▸ h5.1) hvu.symm

theorem remove_teams_eq (c : CtfdConnector) (v : String) (w : World) :
    (remove_user_from_team c v w).2.cache.teams = w.cache.teams := by
  rcases hreq : remove_user_from_team_request v w with ⟨res, w1⟩
  have h1 : w1.cache = w.cache := by
    have h := remove_request_cache v w
    rw [hreq] at h; exact h
  rcases res with e | o
  · simp [remove_user_from_team, hreq, h1]
  · rcases o with _ | ⟨path, body⟩
    · simp [remove_user_from_team, hreq, h1]
    · rcases hd : assign_host c "delete" "DELETE" path (some body) w1 with ⟨resd, w2⟩
      have h2 : w2.cache = w1.cache := by
        have h := assign_host_cache c "delete" "DELETE" path (some body) w1
        rw [hd] at h; exact h
      rcases resd with e2 | r
      · simp [remove_user_from_team, hreq, CtfdConnector.delete, hd, h2, h1]
      · rcases hset : setTeamId w2.cache.users v none with _ | l
        · simp only [remove_user_from_team, hreq, CtfdConnector.delete, hd,
            remove_user_from_team_core, hset]
          simp [h2, h1]
        · simp only [remove_user_from_team, hreq, CtfdConnector.delete, hd,
            remove_user_from_team_core, hset, Cache.setColl]
          simp [h2, h1]

theorem teamIdNone_step (c : CtfdConnector) (op : Op) (w : World) (u : String)
    (hop : ∀ t, op ≠ Op.assignUser2Team u t) (hT : TeamIdNone u w) :
    TeamIdNone u (stepW c op w) := by
  cases op with
  | createUser v a => exact create_user_preserves_teamIdNone c v a w u hT
  | createTeam n => exact teamIdNone_users_eq (create_team_users_eq c n w) hT
  | createChallenge n v cat d st ty =>
      exact teamIdNone_users_eq (create_challenge_users_eq c n v cat d st ty w) hT
  | createFlag ch fl fv dv ty =>
      exact teamIdNone_users_eq (create_flag_users_eq c ch fl fv dv ty w) hT
  | assignUser2Team v t =>
      have hvu : v ≠ u := by
        intro h
        exact hop t (by rw [h])
      exact assign_preserves_teamIdNone c v t w u hvu hT
  | removeUserFromTeam v => exact remove_preserves_teamIdNone c v w u hT
  | updateFlag n fv dv ty =>
      exact teamIdNone_users_eq (update_flag_users_eq c n fv dv ty w) hT
  | deleteUser v => exact delete_user_preserves_teamIdNone c v w u hT
  | deleteTeam n => exact teamIdNone_users_eq (delete_team_users_eq c n w) hT
  | deleteChallenge n => exact teamIdNone_users_eq (delete_challenge_users_eq c n w) hT
  | deleteFlag n => exact teamIdNone_users_eq (delete_flag_users_eq c n w) hT

theorem teamIdNone_runOps (c : CtfdConnector) (ops : List Op) (w : World) (u : String)
    (hop : ∀ t, Op.assignUser2Team u t ∉ ops) (hT : TeamIdNone u w) :
    TeamIdNone u (runOps c ops w) := by
  induction ops generalizing w with
  | nil => simpa [runOps] using hT
  | cons op rest ih =>
      have h1 : ∀ t, Op.assignUser2Team u t ∉ rest :=
        fun t ht => hop t (List.mem_cons_of_mem _ ht)
      have h2 : ∀ t, op ≠ Op.assignUser2Team u t :=
        fun t h => hop t (h ▸ List.mem_cons_self _ _)
      exact ih (stepW c op w) h1 (teamIdNone_step c op w u h2 hT)

theorem create_user_ok_team_none (c : CtfdConnector) (u : String) (a : Bool)
    (w : World) (hok : (create_user c u a w).1 = .ok ()) :
    ∃ e, alookup (create_user c u a w).2.cache.users u = some e ∧
      e.team_id = none := by
  rcases hreq : create_user_request u a w with ⟨res, w1⟩
  rcases res with e | ⟨path, body⟩
  · simp [create_user, hreq] at hok
  · rcases hd : assign_host c "post" "POST" path (some body) w1 with ⟨resd, w2⟩
    rcases resd with e | r
    · simp [create_user, hreq, CtfdConnector.post, hd] at hok
    · rcases hid : responseDataId r with _ | i
      · simp [create_user, hreq, CtfdConnector.post, hd, create_user_core, hid] at hok
      · refine ⟨{ id := i, team_id := none }, ?_, rfl⟩
        simp [create_user, hreq, CtfdConnector.post, hd, create_user_core, hid,
          Cache.setColl, alookup_aset_self]

theorem remove_ok_team_none (c : CtfdConnector) (u : String) (w : World)
    (hok : (remove_user_from_team c u w).1 = .ok ()) :
    ∃ e, alookup (remove_user_from_team c u w).2.cache.users u = some e ∧
      e.team_id = none := by
  rcases halo : alookup w.cache.users u with _ | eu
  · simp [remove_user_from_team, remove_user_from_team_request, get_field_from_storage,
      Cache.coll, halo] at hok
  · rcases hteam : eu.team_id with _ | ta
    · refine ⟨eu, ?_, hteam⟩
      simp [remove_user_from_team, remove_user_from_team_request, get_field_from_storage,
        Cache.coll, halo, hteam]
    · rcases hd : assign_host c "delete" "DELETE"
          ("teams/" ++ toString ta ++ "/members")
          (some (.jobj [("user_id", .jint eu.id)])) w with ⟨resd, w2⟩
      rcases resd with e | r
      · simp [remove_user_from_team, remove_user_from_team_request, get_field_from_storage,
          Cache.coll, halo, hteam, CtfdConnector.delete, hd] at hok
      · rcases hset : setTeamId w2.cache.users u none with _ | l
        · simp [remove_user_from_team, remove_user_from_team_request,
            get_field_from_storage, Cache.coll, halo, hteam, CtfdConnector.delete, hd,
            remove_user_from_team_core, hset] at hok
        · obtain ⟨e0, he0, he1⟩ := alookup_setTeamId_self _ _ _ _ hset
          refine ⟨{ e0 with team_id := none }, ?_, rfl⟩
          simp [remove_user_from_team, remove_user_from_team_request,
            get_field_from_storage, Cache.coll, halo, hteam, CtfdConnector.delete, hd,
            remove_user_from_team_core, hset, Cache.setColl, he1]

theorem assign_ok_team_set (c : CtfdConnector) (u t : String) (w : World)
    (hok : (assign_user2team c u t w).1 = .ok ()) :
    ∃ e te, alookup (assign_user2team c u t w).2.cache.users u = some e ∧
      alookup (assign_user2team c u t w).2.cache.teams t = some te ∧
      e.team_id = some te.id := by
  rcases halo : alookup w.cache.users u with _ | eu
  · simp [assign_user2team, get_field_from_storage, Cache.coll, halo] at hok
  · rcases hteam : alookup w.cache.teams t with _ | et
    · simp [assign_user2team, get_field_from_storage, Cache.coll, halo, hteam] at hok
    · by_cases heq : eu.team_id = some et.id
      · refine ⟨eu, et, ?_, ?_, heq⟩ <;>
          simp [assign_user2team, get_field_from_storage, Cache.coll, halo, hteam, heq]
      · by_cases hnone : eu.team_id = none
        · rcases hd : assign_host c "post" "POST"
              ("/teams/" ++ toString et.id ++ "/members")
              (some (.jobj [("user_id", .jint eu.id)])) w with ⟨resd, w3⟩
          have h3 : w3.cache = w.cache := by
            have h := assign_host_cache c "post" "POST"
              ("/teams/" ++ toString et.id ++ "/members")
              (some (.jobj [("user_id", .jint eu.id)])) w
            rw [hd] at h; exact h
          rcases resd with e | r
          · simp [assign_user2team, get_field_from_storage, Cache.coll, halo, hteam,
              heq, hnone, CtfdConnector.post, hd] at hok
          · rcases hset : setTeamId w3.cache.users u (some et.id) with _ | l
            · simp [assign_user2team, get_field_from_storage, Cache.coll, halo, hteam,
                heq, hnone, CtfdConnector.post, hd, hset] at hok
            · obtain ⟨e0, he0, he1⟩ := alookup_setTeamId_self _ _ _ _ hset
              refine ⟨{ e0 with team_id := some et.id }, et, ?_, ?_, rfl⟩
              · simp [assign_user2team, get_field_from_storage, Cache.coll, halo, hteam,
                  heq, hnone, CtfdConnector.post, hd, hset, Cache.setColl, he1]
              · simp only [assign_user2team, get_field_from_storage, Cache.coll, halo,
                  hteam, heq, hnone, CtfdConnector.post, hd, hset, Cache.setColl,
                  reduceCtorEq, ne_eq, not_false_eq_true, if_true, if_false,
                  not_true_eq_false]
                simp [h3, hteam]
        · rcases hrm : remove_user_from_team c u w with ⟨resr, w3⟩
          have hteams3 : w3.cache.teams = w.cache.teams := by
            have h := remove_teams_eq c u w
            rw [hrm] at h; exact h
          rcases resr with e | v2
          · simp [assign_user2team, get_field_from_storage, Cache.coll, halo, hteam,
              heq, hnone, hrm] at hok
          · rcases hd : assign_host c "post" "POST"
                ("/teams/" ++ toString et.id ++ "/members")
                (some (.jobj [("user_id", .jint eu.id)])) w3 with ⟨resd, w4⟩
            have h4 : w4.cache = w3.cache := by
              have h := assign_host_cache c "post" "POST"
                ("/teams/" ++ toString et.id ++ "/members")
                (some (.jobj [("user_id", .jint eu.id)])) w3
              rw [hd] at h; exact h
            rcases resd with e | r
            · simp [assign_user2team, get_field_from_storage, Cache.coll, halo, hteam,
                heq, hnone, hrm, CtfdConnector.post, hd] at hok
            · rcases hset : setTeamId w4.cache.users u (some et.id) with _ | l
              · simp [assign_user2team, get_field_from_storage, Cache.coll, halo, hteam,
                  heq, hnone, hrm, CtfdConnector.post, hd, hset] at hok
              · obtain ⟨e0, he0, he1⟩ := alookup_setTeamId_self _ _ _ _ hset
                refine ⟨{ e0 with team_id := some et.id }, et, ?_, ?_, rfl⟩
                · simp [assign_user2team, get_field_from_storage, Cache.coll, halo,
                    hteam, heq, hnone, hrm, CtfdConnector.post, hd, hset, Cache.setColl,
                    he1]
                · simp only [assign_user2team, get_field_from_storage, Cache.coll, halo,
                    hteam, heq, hnone, hrm, CtfdConnector.post, hd, hset, Cache.setColl,
                    reduceCtorEq, ne_eq, not_false_eq_true, if_true, if_false,
                    not_true_eq_false]
                  simp [h4, hteams3, hteam]

/-- C9: a cached user's `team_id` is null when the user record is created,
equals the assigned team's cached id after every successful
`assign_user2team`, is null again after every successful
`remove_user_from_team`, and stays null across any sequence of façade
operations that contains no assignment of that user. -/
theorem claim_C9_team_id_lifecycle :
    (∀ c u a w, (runSync c (Op.createUser u a) w).1 = .ok () →
        ∃ e, alookup (runSync c (Op.createUser u a) w).2.cache.users u = some e ∧
          e.team_id = none) ∧
    (∀ c u t w, (runSync c (Op.assignUser2Team u t) w).1 = .ok () →
        ∃ e te, alookup (runSync c (Op.assignUser2Team u t) w).2.cache.users u = some e ∧
          alookup (runSync c (Op.assignUser2Team u t) w).2.cache.teams t = some te ∧
          e.team_id = some te.id) ∧
    (∀ c u w, (runSync c (Op.removeUserFromTeam u) w).1 = .ok () →
        ∃ e, alookup (runSync c (Op.removeUserFromTeam u) w).2.cache.users u = some e ∧
          e.team_id = none) ∧
    (∀ c ops w u, (∀ t, Op.assignUser2Team u t ∉ ops) → TeamIdNone u w →
        TeamIdNone u (runOps c ops w)) := by
  refine ⟨?_, ?_, ?_, ?_⟩
  · intro c u a w hok
    exact create_user_ok_team_none c u a w hok
  · intro c u t w hok
    exact assign_ok_team_set c u t w hok
  · intro c u w hok
    exact remove_ok_team_none c u w hok
  · intro c ops w u hop hT
    exact teamIdNone_runOps c ops w u hop hT

/-- Witness for C9: a concrete creation, assignment, removal, and a
no-assignment sequence for an uninvolved name. -/
theorem claim_C9_team_id_lifecycle_witness :
    (∃ e, alookup (runSync exConnector (Op.createUser "alice" false)
        (exEmptyWorld [exIdResp 7])).2.cache.users "alice" = some e ∧
      e.team_id = none) ∧
    (∃ e te, alookup (runSync exConnector (Op.assignUser2Team "u" "B")
        (exWorld [exOk, exOk])).2.cache.users "u" = some e ∧
      alookup (runSync exConnector (Op.assignUser2Team "u" "B")
        (exWorld [exOk, exOk])).2.cache.teams "B" = some te ∧
      e.team_id = some te.id) ∧
    (∃ e, alookup (runSync exConnector (Op.removeUserFromTeam "u")
        (exWorld [exOk])).2.cache.users "u" = some e ∧ e.team_id = none) ∧
    TeamIdNone "z" (runOps exConnector [Op.createTeam "T"] (exWorld [])) := by
  refine ⟨?_, ?_, ?_, ?_⟩
  · exact claim_C9_team_id_lifecycle.1 exConnector "alice" false
      (exEmptyWorld [exIdResp 7]) rfl
  · exact claim_C9_team_id_lifecycle.2.1 exConnector "u" "B" (exWorld [exOk, exOk]) rfl
  · exact claim_C9_team_id_lifecycle.2.2.1 exConnector "u" (exWorld [exOk]) rfl
  · refine claim_C9_team_id_lifecycle.2.2.2 exConnector [Op.createTeam "T"]
      (exWorld []) "z" ?_ ?_
    · intro t h
      simp at h
    · intro p hp hz
      simp [exWorld, exCache] at hp
      rw [hp] at hz
      exact absurd hz (by decide)
